import Mathlib

/-!
Verification development for the PharmaGuard pharmacogenomic analysis
pipeline.  The JavaScript sources (knowledge base, VCF parser, risk engine,
safety index, population module, dose simulator, analyze route) are embedded
shallowly below: strings stay strings, JavaScript numbers are modelled as
exact rationals, nullable values become `Option`, fallible code returns
`Option`, and the mutable-object dose simulator is modelled with an explicit
heap of JavaScript objects.  Wall-clock-derived output fields (`patient_id`,
`timestamp`) are omitted from the embedded result record, as they carry no
verifiable content.
-/

namespace PharmaGuard

/-! ## Character-level string helpers mirroring JavaScript primitives

These re-implement the JavaScript string operations used by the sources as
structural recursion over character lists, so that all definitions evaluate
inside the kernel.
-/

/-- Split a character list at every character satisfying `p`, JavaScript
`String.prototype.split` semantics (an empty input yields one empty group). -/
def splitChars (p : Char → Bool) : List Char → List (List Char)
  | [] => [[]]
  | c :: rest =>
    if p c then [] :: splitChars p rest
    else
      match splitChars p rest with
      | [] => [[c]]
      | g :: gs => (c :: g) :: gs

/-- JavaScript `s.split(sep)` for a single-character separator. -/
def jsSplitChar (sep : Char) (s : String) : List String :=
  (splitChars (fun c => c == sep) s.data).map String.mk

/-- Test whether `p` is an initial segment of `l`. -/
def isPreList : List Char → List Char → Bool
  | [], _ => true
  | _ :: _, [] => false
  | a :: as, b :: bs => a == b && isPreList as bs

/-- JavaScript `s.startsWith(pre)`. -/
def jsStartsWith (pre s : String) : Bool :=
  isPreList pre.data s.data

/-- JavaScript `s.trim()` (whitespace at both ends removed). -/
def jsTrim (s : String) : String :=
  String.mk (((s.data.dropWhile Char.isWhitespace).reverse.dropWhile
    Char.isWhitespace).reverse)

/-- JavaScript `s.toUpperCase()` (ASCII). -/
def jsToUpper (s : String) : String :=
  String.mk (s.data.map Char.toUpper)

/-- Drop the trailing carriage return of one line, if present. -/
def stripCR (s : String) : String :=
  String.mk ((match s.data.reverse with
    | '\r' :: t => t
    | l => l).reverse)

/-- JavaScript `content.split(/\r?\n/)`: split on newlines, where each
newline may be preceded by a carriage return that is removed with it. -/
def splitLinesJS (s : String) : List String :=
  (jsSplitChar '\n' s).map stripCR

/-- Remove the first occurrence of `pat` from `s`
(JavaScript `s.replace(pat, "")` with a string pattern). -/
def replaceOnceEmpty (s pat : String) : String :=
  match s.splitOn pat with
  | [] => s
  | [x] => x
  | x :: rest => x ++ String.intercalate pat rest

/-- Split a character list at the first occurrence of `sep`, if any. -/
def splitAtFirst (sep : Char) : List Char → Option (List Char × List Char)
  | [] => none
  | c :: rest =>
    if c == sep then some ([], rest)
    else (splitAtFirst sep rest).map (fun p => (c :: p.1, p.2))

/-- Digits-to-number accumulator for the simplified numeric parsers. -/
def digitsToNat : List Char → ℕ → ℕ
  | [], acc => acc
  | c :: rest, acc => digitsToNat rest (acc * 10 + (c.toNat - '0'.toNat))

/-- Simplified model of JavaScript `parseInt(s)` (base 10): optional sign,
then leading decimal digits; `none` models `NaN`. -/
def jsParseInt (s : String) : Option ℤ :=
  let cs := s.data.dropWhile Char.isWhitespace
  let (sign, cs) : ℤ × List Char :=
    match cs with
    | '-' :: t => (-1, t)
    | '+' :: t => (1, t)
    | cs => (1, cs)
  let digits := cs.takeWhile Char.isDigit
  if digits = [] then none
  else some (sign * (digitsToNat digits 0 : ℤ))

/-- Simplified model of JavaScript `parseFloat(s)`: optional sign, decimal
digits with an optional fractional part (no exponents); `none` models `NaN`. -/
def jsParseFloat (s : String) : Option ℚ :=
  let cs := s.data.dropWhile Char.isWhitespace
  let (sign, cs) : ℚ × List Char :=
    match cs with
    | '-' :: t => (-1, t)
    | '+' :: t => (1, t)
    | cs => (1, cs)
  let intDigits := cs.takeWhile Char.isDigit
  let rest := cs.drop intDigits.length
  let fracDigits :=
    match rest with
    | '.' :: t => t.takeWhile Char.isDigit
    | _ => []
  if intDigits = [] ∧ fracDigits = [] then none
  else
    some (sign * ((digitsToNat intDigits 0 : ℚ) +
      (digitsToNat fracDigits 0 : ℚ) / (10 : ℚ) ^ fracDigits.length))

/-- JavaScript `Math.round` (round half toward positive infinity). -/
def jsRound (q : ℚ) : ℤ := ⌊q + 1/2⌋

/-- `Math.round(q * 100) / 100` — round to two decimals. -/
def jsRound2 (q : ℚ) : ℚ := ((jsRound (q * 100) : ℚ)) / 100

/-- JavaScript `o || d` for an optional string: `null`, missing and the empty
string are all falsy and fall through to the default. -/
def jsOrStr (o : Option String) (d : String) : String :=
  match o with
  | some s => if s = "" then d else s
  | none => d

/-! ## Knowledge base (`pharmacogenomics.js`)

JavaScript object literals become association lists, preserving key order.
-/

/-- One star-allele entry of `GENE_DEFINITIONS`. -/
structure AlleleDef where
  rsids : List String
  function : String
  activityScore : ℚ
deriving DecidableEq, Repr

/-- One gene entry of `GENE_DEFINITIONS`. -/
structure GeneDef where
  name : String
  chromosome : String
  description : String
  starAlleles : List (String × AlleleDef)
deriving DecidableEq, Repr

/-- `GENE_DEFINITIONS` from `pharmacogenomics.js`. -/
def GENE_DEFINITIONS : List (String × GeneDef) := [
  ("CYP2D6", {
    name := "CYP2D6", chromosome := "22",
    description := "Cytochrome P450 2D6 — metabolizes ~25% of clinically used drugs",
    starAlleles := [
      ("*1", ⟨[], "Normal", 1.0⟩),
      ("*2", ⟨["rs16947"], "Normal", 1.0⟩),
      ("*3", ⟨["rs35742686"], "No function", 0⟩),
      ("*4", ⟨["rs3892097"], "No function", 0⟩),
      ("*5", ⟨[], "No function (gene deletion)", 0⟩),
      ("*6", ⟨["rs5030655"], "No function", 0⟩),
      ("*9", ⟨["rs5030656"], "Decreased", 0.5⟩),
      ("*10", ⟨["rs1065852"], "Decreased", 0.25⟩),
      ("*17", ⟨["rs28371706"], "Decreased", 0.5⟩),
      ("*29", ⟨["rs59421388"], "Decreased", 0.5⟩),
      ("*41", ⟨["rs28371725"], "Decreased", 0.5⟩),
      ("*1xN", ⟨[], "Increased (gene duplication)", 2.0⟩),
      ("*2xN", ⟨["rs16947"], "Increased (gene duplication)", 2.0⟩)] }),
  ("CYP2C19", {
    name := "CYP2C19", chromosome := "10",
    description := "Cytochrome P450 2C19 — key enzyme for clopidogrel activation and PPI metabolism",
    starAlleles := [
      ("*1", ⟨[], "Normal", 1.0⟩),
      ("*2", ⟨["rs4244285"], "No function", 0⟩),
      ("*3", ⟨["rs4986893"], "No function", 0⟩),
      ("*4", ⟨["rs28399504"], "No function", 0⟩),
      ("*5", ⟨["rs56337013"], "No function", 0⟩),
      ("*6", ⟨["rs72552267"], "No function", 0⟩),
      ("*7", ⟨["rs72558186"], "No function", 0⟩),
      ("*8", ⟨["rs41291556"], "No function", 0⟩),
      ("*9", ⟨["rs17884712"], "Decreased", 0.5⟩),
      ("*10", ⟨["rs6413438"], "Decreased", 0.5⟩),
      ("*17", ⟨["rs12248560"], "Increased", 1.5⟩)] }),
  ("CYP2C9", {
    name := "CYP2C9", chromosome := "10",
    description := "Cytochrome P450 2C9 — metabolizes warfarin, phenytoin, and NSAIDs",
    starAlleles := [
      ("*1", ⟨[], "Normal", 1.0⟩),
      ("*2", ⟨["rs1799853"], "Decreased", 0.5⟩),
      ("*3", ⟨["rs1057910"], "No function", 0⟩),
      ("*5", ⟨["rs28371686"], "Decreased", 0.5⟩),
      ("*6", ⟨["rs9332131"], "No function", 0⟩),
      ("*8", ⟨["rs7900194"], "Decreased", 0.5⟩),
      ("*11", ⟨["rs28371685"], "Decreased", 0.5⟩)] }),
  ("SLCO1B1", {
    name := "SLCO1B1", chromosome := "12",
    description := "Solute carrier organic anion transporter — hepatic uptake of statins",
    starAlleles := [
      ("*1a", ⟨[], "Normal", 1.0⟩),
      ("*1b", ⟨["rs2306283"], "Normal", 1.0⟩),
      ("*5", ⟨["rs4149056"], "Decreased", 0⟩),
      ("*15", ⟨["rs2306283", "rs4149056"], "Decreased", 0⟩),
      ("*37", ⟨["rs2306283"], "Normal", 1.0⟩)] }),
  ("TPMT", {
    name := "TPMT", chromosome := "6",
    description := "Thiopurine S-methyltransferase — metabolizes azathioprine, mercaptopurine",
    starAlleles := [
      ("*1", ⟨[], "Normal", 1.0⟩),
      ("*2", ⟨["rs1800462"], "No function", 0⟩),
      ("*3A", ⟨["rs1800460", "rs1142345"], "No function", 0⟩),
      ("*3B", ⟨["rs1800460"], "No function", 0⟩),
      ("*3C", ⟨["rs1142345"], "No function", 0⟩),
      ("*4", ⟨["rs1800584"], "No function", 0⟩)] }),
  ("DPYD", {
    name := "DPYD", chromosome := "1",
    description := "Dihydropyrimidine dehydrogenase — rate-limiting enzyme in fluoropyrimidine catabolism",
    starAlleles := [
      ("*1", ⟨[], "Normal", 1.0⟩),
      ("*2A", ⟨["rs3918290"], "No function", 0⟩),
      ("*13", ⟨["rs55886062"], "No function", 0⟩),
      ("c.2846A>T", ⟨["rs67376798"], "Decreased", 0.5⟩),
      ("HapB3", ⟨["rs56038477"], "Decreased", 0.5⟩)] })]

/-- One phenotype entry of a drug's `phenotypeRiskMap`. -/
structure RiskInfo where
  riskLabel : String
  severity : String
  explanation : String
  recommendation : String
  dosingGuideline : String
deriving DecidableEq, Repr

/-- One drug entry of `DRUG_GENE_MAP`. -/
structure DrugInfo where
  gene : String
  description : String
  mechanism : String
  phenotypeRiskMap : List (String × RiskInfo)
deriving DecidableEq, Repr

/-- `DRUG_GENE_MAP` from `pharmacogenomics.js`. -/
def DRUG_GENE_MAP : List (String × DrugInfo) := [
  ("CODEINE", {
    gene := "CYP2D6",
    description := "Codeine is a prodrug converted to morphine by CYP2D6",
    mechanism := "CYP2D6 converts codeine to its active metabolite morphine via O-demethylation",
    phenotypeRiskMap := [
      ("URM", ⟨"Toxic", "critical",
        "Ultra-rapid metabolism produces excessive morphine, risking respiratory depression",
        "AVOID codeine. Use alternative analgesic not metabolized by CYP2D6 (e.g., morphine, acetaminophen, NSAIDs)",
        "Contraindicated — do NOT prescribe codeine"⟩),
      ("RM", ⟨"Toxic", "high",
        "Rapid metabolism may produce elevated morphine levels",
        "Avoid codeine. Consider alternative analgesics",
        "Contraindicated — select alternative analgesic"⟩),
      ("NM", ⟨"Safe", "none",
        "Normal CYP2D6 metabolism produces expected morphine levels",
        "Use codeine at standard dosing per clinical guidelines",
        "Standard dose as per label"⟩),
      ("IM", ⟨"Ineffective", "moderate",
        "Reduced CYP2D6 activity produces insufficient morphine for adequate pain relief",
        "Use alternative analgesic not dependent on CYP2D6 metabolism",
        "Consider alternative analgesic"⟩),
      ("PM", ⟨"Ineffective", "high",
        "Minimal to no conversion of codeine to morphine — drug will not provide pain relief",
        "AVOID codeine. Use alternative analgesic (e.g., morphine, NSAIDs, acetaminophen)",
        "Contraindicated — no therapeutic effect expected"⟩)] }),
  ("WARFARIN", {
    gene := "CYP2C9",
    description := "Warfarin is an anticoagulant metabolized primarily by CYP2C9",
    mechanism := "CYP2C9 metabolizes S-warfarin, the more potent enantiomer. Reduced metabolism increases bleeding risk",
    phenotypeRiskMap := [
      ("NM", ⟨"Safe", "none",
        "Normal CYP2C9 metabolism allows standard warfarin dosing",
        "Initiate warfarin at standard dose with routine INR monitoring",
        "Standard dose (typically 5 mg/day initial, adjusted by INR)"⟩),
      ("IM", ⟨"Adjust Dosage", "moderate",
        "Reduced CYP2C9 activity leads to slower warfarin clearance and increased bleeding risk",
        "Reduce initial warfarin dose by 25-50%. Monitor INR more frequently",
        "Reduce dose by 25-50% (e.g., 2.5-3.75 mg/day initial)"⟩),
      ("PM", ⟨"Toxic", "critical",
        "Severely impaired warfarin metabolism causes drug accumulation and high bleeding risk",
        "Reduce dose by 50-80% or consider alternative anticoagulant. Frequent INR monitoring required",
        "Reduce dose by 50-80% (e.g., 1-2.5 mg/day initial) or use DOAC alternative"⟩)] }),
  ("CLOPIDOGREL", {
    gene := "CYP2C19",
    description := "Clopidogrel is an antiplatelet prodrug requiring CYP2C19 activation",
    mechanism := "CYP2C19 converts clopidogrel to its active thiol metabolite for platelet inhibition",
    phenotypeRiskMap := [
      ("URM", ⟨"Safe", "none",
        "Enhanced CYP2C19 activity provides effective clopidogrel activation",
        "Standard clopidogrel dosing appropriate",
        "Standard dose (75 mg/day maintenance)"⟩),
      ("RM", ⟨"Safe", "none",
        "Rapid CYP2C19 metabolism provides adequate clopidogrel activation",
        "Standard clopidogrel dosing",
        "Standard dose (75 mg/day maintenance)"⟩),
      ("NM", ⟨"Safe", "none",
        "Normal CYP2C19 metabolism provides standard clopidogrel activation",
        "Use clopidogrel at standard dose",
        "Standard dose (75 mg/day maintenance)"⟩),
      ("IM", ⟨"Adjust Dosage", "moderate",
        "Reduced CYP2C19 activity may result in insufficient platelet inhibition",
        "Consider alternative antiplatelet agent (prasugrel, ticagrelor) if no contraindication",
        "Consider prasugrel 10 mg/day or ticagrelor 90 mg BID as alternative"⟩),
      ("PM", ⟨"Ineffective", "critical",
        "Minimal CYP2C19 activity results in negligible active metabolite — increased risk of cardiovascular events",
        "AVOID clopidogrel. Use alternative antiplatelet (prasugrel or ticagrelor)",
        "Contraindicated — switch to prasugrel or ticagrelor"⟩)] }),
  ("SIMVASTATIN", {
    gene := "SLCO1B1",
    description := "Simvastatin hepatic uptake is mediated by SLCO1B1 transporter",
    mechanism := "SLCO1B1 transports simvastatin acid into hepatocytes. Decreased function increases plasma levels and myopathy risk",
    phenotypeRiskMap := [
      ("NF", ⟨"Safe", "none",
        "Normal SLCO1B1 function ensures proper hepatic simvastatin uptake",
        "Standard simvastatin dosing appropriate",
        "Standard dose (20-40 mg/day)"⟩),
      ("NM", ⟨"Safe", "none",
        "Normal SLCO1B1 function ensures proper hepatic simvastatin uptake",
        "Standard simvastatin dosing appropriate",
        "Standard dose (20-40 mg/day)"⟩),
      ("DF", ⟨"Adjust Dosage", "moderate",
        "Decreased SLCO1B1 function increases systemic simvastatin exposure and myopathy risk",
        "Prescribe lower dose of simvastatin (max 20 mg/day) or use alternative statin (rosuvastatin, pravastatin, fluvastatin)",
        "Maximum 20 mg/day. Consider rosuvastatin or pravastatin as alternative"⟩),
      ("IM", ⟨"Adjust Dosage", "moderate",
        "Decreased SLCO1B1 function increases systemic simvastatin exposure and myopathy risk",
        "Prescribe lower dose of simvastatin (max 20 mg/day) or use alternative statin",
        "Maximum 20 mg/day. Consider rosuvastatin or pravastatin as alternative"⟩),
      ("PF", ⟨"Toxic", "critical",
        "Poor SLCO1B1 function significantly increases simvastatin plasma concentration — high risk of myopathy and rhabdomyolysis",
        "AVOID simvastatin. Use alternative statin with lower myopathy risk (pravastatin, rosuvastatin at lower doses, fluvastatin)",
        "Contraindicated — switch to pravastatin 40 mg/day or rosuvastatin 20 mg/day"⟩),
      ("PM", ⟨"Toxic", "critical",
        "Poor SLCO1B1 function significantly increases simvastatin plasma concentration — high risk of myopathy and rhabdomyolysis",
        "AVOID simvastatin. Use alternative statin with lower myopathy risk",
        "Contraindicated — switch to pravastatin or rosuvastatin"⟩)] }),
  ("AZATHIOPRINE", {
    gene := "TPMT",
    description := "Azathioprine is a thiopurine immunosuppressant metabolized by TPMT",
    mechanism := "TPMT methylates thiopurine metabolites. Reduced TPMT activity increases cytotoxic thioguanine nucleotide accumulation",
    phenotypeRiskMap := [
      ("NM", ⟨"Safe", "none",
        "Normal TPMT activity provides standard thiopurine metabolism",
        "Start azathioprine at standard dose with routine monitoring",
        "Standard dose (2-3 mg/kg/day)"⟩),
      ("IM", ⟨"Adjust Dosage", "high",
        "Reduced TPMT activity increases risk of dose-dependent myelosuppression",
        "Reduce starting dose by 30-70% of standard. Monitor CBC weekly for first month",
        "Start at 30-70% of standard dose (0.6-2.1 mg/kg/day) with frequent CBC monitoring"⟩),
      ("PM", ⟨"Toxic", "critical",
        "Minimal TPMT activity causes massive accumulation of cytotoxic thioguanine nucleotides — life-threatening myelosuppression",
        "AVOID azathioprine if possible. If essential, reduce dose by 90% and administer 3x/week. Consider alternative immunosuppressant (mycophenolate)",
        "If used: 10% of standard dose, 3x weekly. Consider mycophenolate as alternative"⟩)] }),
  ("FLUOROURACIL", {
    gene := "DPYD",
    description := "5-Fluorouracil (5-FU) is catabolized by DPD enzyme encoded by DPYD gene",
    mechanism := "DPD is the rate-limiting enzyme in 5-FU catabolism. Deficiency leads to 5-FU accumulation and severe toxicity",
    phenotypeRiskMap := [
      ("NM", ⟨"Safe", "none",
        "Normal DPD activity provides standard fluoropyrimidine metabolism",
        "Use 5-FU at standard dose per protocol",
        "Standard dose per oncology protocol"⟩),
      ("IM", ⟨"Adjust Dosage", "high",
        "Reduced DPD activity increases risk of severe 5-FU toxicity (mucositis, myelosuppression, neurotoxicity)",
        "Reduce 5-FU starting dose by 25-50%. Monitor closely for toxicity. Consider therapeutic drug monitoring",
        "Reduce dose by 25-50% with therapeutic drug monitoring"⟩),
      ("PM", ⟨"Toxic", "critical",
        "Absent or near-absent DPD activity causes life-threatening 5-FU accumulation — can be fatal",
        "AVOID 5-FU and all fluoropyrimidine-based regimens. Use alternative chemotherapy agent",
        "Contraindicated — do NOT administer. Select alternative regimen"⟩)] })]

/-- `determinePhenotype` from `pharmacogenomics.js`: maps a gene and a total
activity score to a phenotype code. -/
def determinePhenotype (gene : String) (activityScore : ℚ) : String :=
  if gene = "SLCO1B1" then
    if activityScore ≥ 2.0 then "NF"
    else if activityScore ≥ 1.0 then "DF"
    else "PF"
  else
    if activityScore ≥ 2.25 then "URM"
    else if activityScore ≥ 1.5 then "RM"
    else if activityScore ≥ 1.0 then "NM"
    else if activityScore > 0 then "IM"
    else "PM"

/-- `PHENOTYPE_NAMES` from `pharmacogenomics.js`. -/
def PHENOTYPE_NAMES : List (String × String) := [
  ("URM", "Ultrarapid Metabolizer"),
  ("RM", "Rapid Metabolizer"),
  ("NM", "Normal Metabolizer"),
  ("IM", "Intermediate Metabolizer"),
  ("PM", "Poor Metabolizer"),
  ("NF", "Normal Function"),
  ("DF", "Decreased Function"),
  ("PF", "Poor Function"),
  ("Unknown", "Unknown")]

/-- `SUPPORTED_DRUGS` from `pharmacogenomics.js`. -/
def SUPPORTED_DRUGS : List String :=
  ["CODEINE", "WARFARIN", "CLOPIDOGREL", "SIMVASTATIN", "AZATHIOPRINE", "FLUOROURACIL"]

/-- One entry of the derived rsID reverse-lookup index. -/
structure RsidMatch where
  gene : String
  starAllele : String
  function : String
  activityScore : ℚ
deriving DecidableEq, Repr

/-- Append a match to the entry list of `rsid`, creating the key on first
sight (mirrors `lookup[rsid].push` on a JavaScript object). -/
def addRsid (lk : List (String × List RsidMatch)) (rsid : String) (m : RsidMatch) :
    List (String × List RsidMatch) :=
  if (lk.lookup rsid).isSome then
    lk.map (fun p => if p.1 = rsid then (p.1, p.2 ++ [m]) else p)
  else lk ++ [(rsid, [m])]

/-- `buildRsidLookup` from `pharmacogenomics.js`: rsID → list of
(gene, star allele, function, activity score), in table order. -/
def buildRsidLookup : List (String × List RsidMatch) :=
  GENE_DEFINITIONS.foldl (fun lk (g : String × GeneDef) =>
    g.2.starAlleles.foldl (fun lk (a : String × AlleleDef) =>
      a.2.rsids.foldl (fun lk rsid =>
        addRsid lk rsid ⟨g.1, a.1, a.2.function, a.2.activityScore⟩) lk) lk) []

/-! ## VCF parser (`vcfParser.js`) -/

/-- A value of the INFO key-value map: a string, or `true` for a bare flag. -/
inductive InfoVal where
  | str (s : String)
  | flag
deriving DecidableEq, Repr

/-- One pharmacogenomic annotation attached to a parsed variant.  The
`VCF_INFO` path leaves `function` and `activityScore` unset. -/
structure PgxAnnotation where
  gene : String
  starAllele : Option String
  function : Option String := none
  activityScore : Option ℚ := none
  source : String
deriving DecidableEq, Repr

/-- One parsed, pharmacogenomically relevant VCF data line.  `none` in `pos`,
`qual` and `genotypeQuality` models JavaScript `NaN`/`null`. -/
structure Variant where
  chrom : String
  pos : Option ℤ
  rsids : List String
  ref : String
  alt : List String
  qual : Option ℚ
  filter : String
  info : List (String × InfoVal)
  genotype : Option String
  genotypeQuality : Option ℚ
  pgxAnnotations : List PgxAnnotation
  rawLine : String
deriving DecidableEq, Repr

/-- The parser's `metadata` record. -/
structure VCFMetadata where
  fileformat : Option String
  sampleIds : List String
  headerFields : List String
  totalVariants : ℕ
  pgxVariants : ℕ
deriving DecidableEq, Repr

/-- Return value of `parseVCF`. -/
structure ParseResult where
  variants : List Variant
  metadata : VCFMetadata
  errors : List String
deriving DecidableEq, Repr

/-- `parseInfoField` from `vcfParser.js`: semicolon-separated `key=value`
pairs; a bare key becomes a boolean flag. -/
def parseInfoField (info : String) : List (String × InfoVal) :=
  if info = "" ∨ info = "." then []
  else
    (jsSplitChar ';' info).map (fun entry =>
      match splitAtFirst '=' entry.data with
      | some (k, v) => (String.mk k, InfoVal.str (String.mk v))
      | none => (entry, InfoVal.flag))

/-- `extractRsids` from `vcfParser.js`. -/
def extractRsids (idField : String) : List String :=
  if idField = "" ∨ idField = "." then []
  else
    ((splitChars (fun c => c == ';' || c == ',') idField.data).map
      (fun cs => jsTrim (String.mk cs))).filter
      (fun s => jsStartsWith "rs" s)

/-- The error message of the fail-fast header check. -/
def headerErrorMsg : String := "Invalid VCF file: missing ##fileformat=VCF header line"

/-- The error message appended when no `#CHROM` header line was seen. -/
def noHeaderLineMsg : String := "Invalid VCF: no header line (#CHROM ...) found"

/-- The per-line error message for a data line with fewer than 8 fields. -/
def lineErrorMsg (lineNo got : ℕ) : String :=
  "Line " ++ Nat.repr lineNo ++ ": insufficient fields (expected ≥8, got " ++
    Nat.repr got ++ ")"

/-- Mutable state of the parsing loop. -/
structure ParseState where
  headerSeen : Bool
  headerFields : List String
  sampleIds : List String
  totalVariants : ℕ
  pgxVariants : ℕ
  variants : List Variant
  errors : List String
  metaLines : List String
deriving DecidableEq, Repr

/-- Initial loop state. -/
def initParseState : ParseState := ⟨false, [], [], 0, 0, [], [], []⟩

/-- Extract the value of an INFO key when it is a string.  A bare flag is
treated as absent here; on such inputs the JavaScript source would raise a
`TypeError` (calling string methods on `true`), a path outside every claim. -/
def infoStr (m : List (String × InfoVal)) (key : String) : Option String :=
  match m.lookup key with
  | some (InfoVal.str s) => some s
  | _ => none

/-- `infoMap.KEY || infoMap.key || null`. -/
def infoStr2 (m : List (String × InfoVal)) (upper lower : String) : Option String :=
  match infoStr m upper with
  | some s => if s = "" then infoStr m lower else some s
  | none => infoStr m lower

/-- Genotype / genotype-quality extraction from the FORMAT and first sample
columns (`GT`/`GQ` located positionally; empty subfields are falsy). -/
def extractGenotype (rest : List String) : Option String × Option ℚ :=
  match rest with
  | fmt :: sample :: _ =>
    let formatFields := jsSplitChar ':' fmt
    let sampleFields := jsSplitChar ':' sample
    let gt :=
      match formatFields.indexOf? "GT" with
      | some i =>
        match sampleFields.get? i with
        | some s => if s = "" then none else some s
        | none => none
      | none => none
    let gq :=
      match formatFields.indexOf? "GQ" with
      | some i =>
        match sampleFields.get? i with
        | some s => if s = "" then none else jsParseFloat s
        | none => none
      | none => none
    (gt, gq)
  | _ => (none, none)

/-- Annotations contributed by the rsID-lookup relevance path. -/
def rsidAnnotations (rsidLookup : List (String × List RsidMatch)) (rsids : List String) :
    List PgxAnnotation :=
  rsids.foldl (fun acc rsid =>
    match rsidLookup.lookup rsid with
    | some ms => acc ++ ms.map (fun m =>
        { gene := m.gene, starAllele := some m.starAllele,
          function := some m.function, activityScore := some m.activityScore,
          source := "rsID_lookup" })
    | none => acc) []

/-- The relevance test and variant construction of one well-formed data
line: `some` exactly when the line is pharmacogenomically relevant, carrying
the retained `Variant`. -/
def pgxVariantOf (rsidLookup : List (String × List RsidMatch))
    (knownGenes : List String) (line : String) (fields : List String) :
    Option Variant :=
  match fields with
  | chrom :: pos :: id :: rf :: alt :: qual :: filt :: info :: rest =>
    let infoMap := parseInfoField info
    let (genotype, genotypeQuality) := extractGenotype rest
    let rsids := extractRsids id
    let geneFromInfo := infoStr2 infoMap "GENE" "gene"
    let starFromInfo := infoStr2 infoMap "STAR" "star"
    let geneAnns : List PgxAnnotation :=
      match geneFromInfo with
      | some g =>
        if g ≠ "" ∧ knownGenes.contains (jsToUpper g) then
          [{ gene := jsToUpper g,
             starAllele := (match starFromInfo with
               | some s => if s = "" then none else some s
               | none => none),
             source := "VCF_INFO" }]
        else []
      | none => []
    let rsAnns := rsidAnnotations rsidLookup rsids
    let baseAnns := geneAnns ++ rsAnns
    let rsFromInfo := infoStr2 infoMap "RS" "rs"
    let (extraAnns, extraRsids) :=
      match rsFromInfo with
      | some rsv =>
        if rsv = "" then ([], [])
        else
          let normalizedRs := if jsStartsWith "rs" rsv then rsv else "rs" ++ rsv
          match rsidLookup.lookup normalizedRs with
          | some ms =>
            let fresh := ms.foldl (fun (acc : List PgxAnnotation) (m : RsidMatch) =>
              if (baseAnns ++ acc).any (fun a =>
                  a.gene = m.gene ∧ a.starAllele = some m.starAllele) then acc
              else
                let ann : PgxAnnotation :=
                  { gene := m.gene, starAllele := some m.starAllele,
                    function := some m.function,
                    activityScore := some m.activityScore,
                    source := "INFO_RS" }
                acc ++ [ann]) []
            (fresh, if rsids.contains normalizedRs then [] else [normalizedRs])
          | none => ([], [])
      | none => ([], [])
    let pgxAnnotations := baseAnns ++ extraAnns
    let rsTagHit : Bool :=
      match rsFromInfo with
      | some rsv =>
        rsv != "" &&
          (rsidLookup.lookup (if jsStartsWith "rs" rsv then rsv else "rs" ++ rsv)).isSome
      | none => false
    let isPgx : Bool := !geneAnns.isEmpty || !rsAnns.isEmpty || rsTagHit
    if isPgx then
      some
        { chrom := chrom,
          pos := jsParseInt pos,
          rsids := rsids ++ extraRsids,
          ref := rf,
          alt := jsSplitChar ',' alt,
          qual := if qual = "." then none else jsParseFloat qual,
          filter := filt,
          info := infoMap,
          genotype := genotype,
          genotypeQuality := genotypeQuality,
          pgxAnnotations := pgxAnnotations,
          rawLine := line }
    else none
  | _ => none

/-- Process one line of the file (the body of the parsing loop);
`idx` is the zero-based index of the line. -/
def processLine (rsidLookup : List (String × List RsidMatch))
    (knownGenes : List String) (st : ParseState) (idx : ℕ) (rawLine : String) :
    ParseState :=
  let line := jsTrim rawLine
  if line = "" then st
  else if jsStartsWith "##" line then
    { st with metaLines := st.metaLines ++ [line] }
  else if jsStartsWith "#CHROM" line ∨ jsStartsWith "#chrom" line then
    let headerLine := jsSplitChar '\t' (String.mk line.data.tail)
    let sampleIds :=
      match headerLine.indexOf? "FORMAT" with
      | some i => if i + 1 < headerLine.length then headerLine.drop (i + 1) else st.sampleIds
      | none => st.sampleIds
    { st with headerSeen := true, headerFields := headerLine, sampleIds := sampleIds }
  else if jsStartsWith "#" line then st
  else
    let fields := jsSplitChar '\t' line
    if fields.length < 8 then
      { st with errors := st.errors ++ [lineErrorMsg (idx + 1) fields.length] }
    else
      let st1 := { st with totalVariants := st.totalVariants + 1 }
      match pgxVariantOf rsidLookup knownGenes line fields with
      | some v =>
        { st1 with
            pgxVariants := st1.pgxVariants + 1,
            variants := st1.variants ++ [v] }
      | none => st1

/-- `parseVCF` from `vcfParser.js`. -/
def parseVCF (vcfContent : String) : ParseResult :=
  let lines := splitLinesJS vcfContent
  if ¬ jsStartsWith "##fileformat=VCF" (lines.headD "") then
    { variants := [], metadata := ⟨none, [], [], 0, 0⟩, errors := [headerErrorMsg] }
  else
    let fileformat := jsTrim (replaceOnceEmpty (lines.headD "") "##fileformat=")
    let rsidLookup := buildRsidLookup
    let knownGenes := GENE_DEFINITIONS.map Prod.fst
    let st := (lines.enum).foldl
      (fun st (p : ℕ × String) => processLine rsidLookup knownGenes st p.1 p.2)
      initParseState
    let errors := if st.headerSeen then st.errors else st.errors ++ [noHeaderLineMsg]
    { variants := st.variants,
      metadata := ⟨some fileformat, st.sampleIds, st.headerFields,
        st.totalVariants, st.pgxVariants⟩,
      errors := errors }

/-- The first non-empty line of a file, the object of the spec's header
check claim. -/
def firstNonEmptyLine (s : String) : Option String :=
  (splitLinesJS s).find? (fun l => l ≠ "")

/-! ## Risk engine (`riskEngine.js`)

The result record mirrors the JSON output schema.  The wall-clock fields
`patient_id` and `timestamp` are omitted (they are derived from the current
time and carry no verifiable content).
-/

/-- Output of `calculateConfidence`. -/
structure ConfidenceDetails where
  score : ℚ
  avgQual : ℤ
  variantCount : ℕ
  level : String
deriving DecidableEq, Repr

/-- The `risk_assessment` block. -/
structure RiskAssessment where
  risk_label : String
  confidence_score : ℚ
  confidence_details : ConfidenceDetails
  severity : String
deriving DecidableEq, Repr

/-- One formatted entry of `detected_variants`. -/
structure DetectedVariant where
  rsid : String
  chromosome : String
  position : Option ℤ
  ref_allele : String
  alt_allele : String
  genotype : String
  quality_score : Option ℚ
  gene : String
  star_allele : Option String
  functional_impact : String
  annotation_source : String
deriving DecidableEq, Repr

/-- The `pharmacogenomic_profile` block. -/
structure PgxProfile where
  primary_gene : String
  diplotype : String
  phenotype : String
  detected_variants : List DetectedVariant
deriving DecidableEq, Repr

/-- The `clinical_recommendation` block. -/
structure ClinicalRecommendation where
  action : String
  dosing_guideline : String
  monitoring : String
  alternatives : List String
  cpic_guideline_reference : String
deriving DecidableEq, Repr

/-- The `llm_generated_explanation` block. -/
structure LlmExplanation where
  summary : String
  mechanism : Option String
  clinical_significance : String
  evidence_level : String
  citations : List String
deriving DecidableEq, Repr

/-- The `quality_metrics` block. -/
structure QualityMetrics where
  vcf_parsing_success : Bool
  variants_detected : ℕ
  gene_coverage : String
  analysis_version : String
  cpic_version : String
deriving DecidableEq, Repr

/-- The complete per-drug risk result. -/
structure RiskResult where
  drug : String
  risk_assessment : RiskAssessment
  pharmacogenomic_profile : PgxProfile
  clinical_recommendation : ClinicalRecommendation
  llm_generated_explanation : LlmExplanation
  quality_metrics : QualityMetrics
deriving DecidableEq, Repr

/-- `isHomozygousVariant` from `riskEngine.js`: genotype split on `/` or `|`
must have exactly two equal, non-`"0"` parts. -/
def isHomozygousVariant (v : Variant) : Bool :=
  match v.genotype with
  | none => false
  | some gt =>
    let parts := (splitChars (fun c => c == '/' || c == '|') gt.data).map String.mk
    parts.length = 2 && parts.headD "" = parts.getD 1 "" && parts.headD "" ≠ "0"

/-- Result of `determineDiplotype`. -/
structure DiplotypeResult where
  diplotype : String
  allele1 : String
  allele2 : String
  detectedStarAlleles : List String
  activityScore : ℚ
deriving DecidableEq, Repr

/-- Insert preserving first-occurrence order without duplicates
(JavaScript `Set.add`). -/
def setAdd (l : List String) (s : String) : List String :=
  if l.contains s then l else l ++ [s]

/-- `determineDiplotype` from `riskEngine.js`. -/
def determineDiplotype (geneVariants : List Variant) (geneName : String)
    (geneDef : GeneDef) : DiplotypeResult :=
  let detectedStarAlleles := geneVariants.foldl (fun acc v =>
    v.pgxAnnotations.foldl (fun acc ann =>
      if ann.gene = geneName then
        match ann.starAllele with
        | some s => if s = "" then acc else setAdd acc s
        | none => acc
      else acc) acc) []
  let alleles := detectedStarAlleles
  if alleles = [] then
    { diplotype := "*1/*1", allele1 := "*1", allele2 := "*1",
      detectedStarAlleles := [], activityScore := 2.0 }
  else
    let (allele1, allele2) :=
      if alleles.length = 1 then
        let a0 := alleles.headD ""
        let variant := geneVariants.find? (fun v =>
          v.pgxAnnotations.any (fun a => a.starAllele = some a0))
        let isHomozygous :=
          match variant with
          | some v => isHomozygousVariant v
          | none => false
        if isHomozygous then (a0, a0) else (a0, "*1")
      else
        (alleles.headD "", alleles.getD 1 "")
    let score1 := ((geneDef.starAlleles.lookup allele1).map
      AlleleDef.activityScore).getD 1.0
    let score2 := ((geneDef.starAlleles.lookup allele2).map
      AlleleDef.activityScore).getD 1.0
    { diplotype := allele1 ++ "/" ++ allele2, allele1 := allele1,
      allele2 := allele2, detectedStarAlleles := alleles,
      activityScore := score1 + score2 }

/-- `confidenceLevel` from `riskEngine.js`. -/
def confidenceLevel (score : ℚ) : String :=
  if score ≥ 0.75 then "High"
  else if score ≥ 0.50 then "Moderate"
  else "Low"

/-- `v.qual || 0`. -/
def jsQualOrZero (v : Variant) : ℚ := v.qual.getD 0

/-- The average quality score used by `calculateConfidence`:
sum of `(v.qual || 0)` divided by `Math.max(variantCount, 1)`. -/
def avgQualOf (geneVariants : List Variant) : ℚ :=
  (geneVariants.foldl (fun s v => s + jsQualOrZero v) 0) /
    (max geneVariants.length 1 : ℕ)

/-- The numeric core of `calculateConfidence`, as a function of the four
quantities the sequential `+=` chain actually depends on. -/
def confScore (variantCount starCount : ℕ) (avgQual : ℚ) (hasHomozygous : Bool) : ℚ :=
  let c := 0.35
    + min ((variantCount : ℚ) * 0.10) 0.20
    + (if starCount = 1 then 0.10 else if 2 ≤ starCount then 0.15 else 0)
    + (if 0 < avgQual then min (avgQual / 100) 1 * 0.15 else 0)
    + (if hasHomozygous then 0.05 else 0)
    + (if 50 < avgQual then 0.05 else 0)
  min (jsRound2 c) 0.95

/-- `calculateConfidence` from `riskEngine.js`. -/
def calculateConfidence (geneVariants : List Variant)
    (detectedStarAlleles : List String) : ConfidenceDetails :=
  let avgQual := avgQualOf geneVariants
  let score := confScore geneVariants.length detectedStarAlleles.length avgQual
    (geneVariants.any isHomozygousVariant)
  { score := score, avgQual := jsRound avgQual,
    variantCount := geneVariants.length, level := confidenceLevel score }

/-- `formatDetectedVariants` from `riskEngine.js`. -/
def formatDetectedVariants (geneVariants : List Variant) (primaryGene : String) :
    List DetectedVariant :=
  geneVariants.map (fun v =>
    let pgxAnn :=
      match v.pgxAnnotations.find? (fun a => a.gene = primaryGene) with
      | some a => some a
      | none => v.pgxAnnotations.head?
    { rsid := jsOrStr v.rsids.head? "unknown",
      chromosome := v.chrom,
      position := v.pos,
      ref_allele := v.ref,
      alt_allele := String.intercalate "," v.alt,
      genotype := jsOrStr v.genotype "unknown",
      quality_score := v.qual,
      gene := jsOrStr (pgxAnn.map PgxAnnotation.gene) primaryGene,
      star_allele := (pgxAnn.bind PgxAnnotation.starAllele),
      functional_impact := jsOrStr (pgxAnn.bind PgxAnnotation.function) "Unknown",
      annotation_source := jsOrStr (pgxAnn.map PgxAnnotation.source) "Unknown" })

/-- `getMonitoringRecommendation` from `riskEngine.js`. -/
def getMonitoringRecommendation (riskLabel : String) : String :=
  if riskLabel = "Safe" then
    "Routine clinical monitoring as per standard of care"
  else if riskLabel = "Adjust Dosage" then
    "Enhanced monitoring recommended — more frequent lab tests during dose titration"
  else if riskLabel = "Toxic" then
    "Do NOT administer without specialist consultation. If used, intensive monitoring required"
  else if riskLabel = "Ineffective" then
    "Monitor for therapeutic failure. Consider therapeutic drug monitoring or alternative agent"
  else
    "Clinical judgment required. Consider pharmacogenomic consultation"

/-- `getAlternatives` from `riskEngine.js`. -/
def getAlternatives (drug riskLabel : String) : List String :=
  if riskLabel = "Safe" then []
  else if drug = "CODEINE" then
    ["Morphine (direct)", "Acetaminophen", "NSAIDs (ibuprofen)", "Tramadol (with caution)"]
  else if drug = "WARFARIN" then
    ["Apixaban (Eliquis)", "Rivaroxaban (Xarelto)", "Dabigatran (Pradaxa)"]
  else if drug = "CLOPIDOGREL" then
    ["Prasugrel (Effient)", "Ticagrelor (Brilinta)"]
  else if drug = "SIMVASTATIN" then
    ["Pravastatin", "Rosuvastatin (lower dose)", "Fluvastatin"]
  else if drug = "AZATHIOPRINE" then
    ["Mycophenolate mofetil", "Methotrexate (if applicable)"]
  else if drug = "FLUOROURACIL" then
    ["Alternative chemotherapy regimen per oncologist"]
  else []

/-- `getClinicalSignificance` from `riskEngine.js` (keyed only by severity). -/
def getClinicalSignificance (severity : String) : String :=
  if severity = "critical" then
    "CRITICAL — Immediate clinical action required. Risk of severe adverse events or therapeutic failure."
  else if severity = "high" then
    "HIGH — Significant clinical impact. Dose modification or drug substitution strongly recommended."
  else if severity = "moderate" then
    "MODERATE — Clinical impact present. Dose adjustment or enhanced monitoring recommended."
  else if severity = "low" then
    "LOW — Minor clinical impact. Standard care with awareness of potential effects."
  else
    "NONE — No significant pharmacogenomic interaction identified. Standard dosing appropriate."

/-- Arguments of `buildResult`. -/
structure BuildArgs where
  drug : String
  riskLabel : String
  confidence : ℚ
  confidenceDetails : Option ConfidenceDetails := none
  severity : String
  phenotype : String
  diplotype : String
  primaryGene : String
  detectedVariants : List DetectedVariant
  recommendation : String
  dosingGuideline : String
  explanation : String
  mechanism : Option String := none

/-- `buildResult` from `riskEngine.js`. -/
def buildResult (a : BuildArgs) : RiskResult :=
  { drug := a.drug,
    risk_assessment :=
      { risk_label := a.riskLabel,
        confidence_score := a.confidence,
        confidence_details := a.confidenceDetails.getD
          { score := a.confidence, avgQual := 0, variantCount := 0,
            level := confidenceLevel a.confidence },
        severity := a.severity },
    pharmacogenomic_profile :=
      { primary_gene := a.primaryGene,
        diplotype := a.diplotype,
        phenotype := a.phenotype,
        detected_variants := a.detectedVariants },
    clinical_recommendation :=
      { action := a.recommendation,
        dosing_guideline := a.dosingGuideline,
        monitoring := getMonitoringRecommendation a.riskLabel,
        alternatives := getAlternatives a.drug a.riskLabel,
        cpic_guideline_reference :=
          "CPIC Guideline for " ++ a.drug ++ " and " ++ a.primaryGene },
    llm_generated_explanation :=
      { summary := a.explanation,
        mechanism := a.mechanism,
        clinical_significance := getClinicalSignificance a.severity,
        evidence_level := "CPIC Level A (Strong)",
        citations :=
          ["CPIC Guideline for " ++ a.primaryGene ++ " and " ++ a.drug ++ " (cpicpgx.org)",
           "PharmGKB Clinical Annotation for " ++ a.primaryGene] },
    quality_metrics :=
      { vcf_parsing_success := true,
        variants_detected := a.detectedVariants.length,
        gene_coverage := a.primaryGene,
        analysis_version := "PharmaGuard v1.0",
        cpic_version := "CPIC 2024" } }

/-- A placeholder gene definition for the (unreachable) case of a supported
drug whose primary gene is missing from `GENE_DEFINITIONS`. -/
def emptyGeneDef : GeneDef := ⟨"", "", "", []⟩

/-- `assessRisk` from `riskEngine.js`. -/
def assessRisk (variants : List Variant) (drugName : String) : RiskResult :=
  let drug := jsTrim (jsToUpper drugName)
  match DRUG_GENE_MAP.lookup drug with
  | none =>
    buildResult
      { drug := drug,
        riskLabel := "Unknown",
        confidence := 0,
        severity := "none",
        phenotype := "Unknown",
        diplotype := "Unknown",
        primaryGene := "Unknown",
        detectedVariants := [],
        recommendation := "Drug \"" ++ drug ++
          "\" is not in the supported drug list. Supported drugs: " ++
          String.intercalate ", " SUPPORTED_DRUGS,
        dosingGuideline := "No guideline available for this drug",
        explanation := "The drug \"" ++ drug ++
          "\" is not currently supported by PharmaGuard." }
  | some drugInfo =>
    let primaryGene := drugInfo.gene
    let geneDef := (GENE_DEFINITIONS.lookup primaryGene).getD emptyGeneDef
    let geneVariants := variants.filter (fun v =>
      v.pgxAnnotations.any (fun a => a.gene = primaryGene))
    let d := determineDiplotype geneVariants primaryGene geneDef
    let phenotype := determinePhenotype primaryGene d.activityScore
    let phenotypeName := jsOrStr (PHENOTYPE_NAMES.lookup phenotype) "Unknown"
    match drugInfo.phenotypeRiskMap.lookup phenotype with
    | none =>
      buildResult
        { drug := drug,
          riskLabel := "Unknown",
          confidence := if geneVariants.length > 0 then 0.4 else 0.1,
          severity := "none",
          phenotype := phenotypeName,
          diplotype := d.diplotype,
          primaryGene := primaryGene,
          detectedVariants := formatDetectedVariants geneVariants primaryGene,
          recommendation := "Phenotype \"" ++ phenotypeName ++
            "\" does not have a specific risk mapping for " ++ drug ++
            ". Consider standard dosing with monitoring.",
          dosingGuideline := "No specific guideline — use clinical judgment",
          explanation := drugInfo.description }
    | some riskInfo =>
      let conf := calculateConfidence geneVariants d.detectedStarAlleles
      buildResult
        { drug := drug,
          riskLabel := riskInfo.riskLabel,
          confidence := conf.score,
          confidenceDetails := some conf,
          severity := riskInfo.severity,
          phenotype := phenotypeName,
          diplotype := d.diplotype,
          primaryGene := primaryGene,
          detectedVariants := formatDetectedVariants geneVariants primaryGene,
          recommendation := riskInfo.recommendation,
          dosingGuideline := riskInfo.dosingGuideline,
          explanation := riskInfo.explanation,
          mechanism := some drugInfo.mechanism }

/-! ## Safety index (`safetyIndex.js`) -/

/-- One entry of the safety-index breakdown. -/
structure BreakdownEntry where
  drug : String
  riskLabel : String
  penalty : ℤ
  reasons : List String
deriving DecidableEq, Repr

/-- Result of `computeSafetyIndex`. -/
structure SafetyIndexResult where
  score : ℤ
  level : String
  color : String
  breakdown : List BreakdownEntry
deriving DecidableEq, Repr

/-- The per-result body of the `computeSafetyIndex` loop: accumulated
penalty and reason strings for one drug. -/
def breakdownFor (r : RiskResult) : BreakdownEntry :=
  let label := r.risk_assessment.risk_label
  let sev := r.risk_assessment.severity
  let conf := r.risk_assessment.confidence_score
  let variants := r.pharmacogenomic_profile.detected_variants.length
  let p1 : ℤ :=
    if label = "Toxic" ∨ label = "Ineffective" then 25
    else if label = "Adjust Dosage" then 10 else 0
  let rs1 : List String :=
    if label = "Toxic" ∨ label = "Ineffective" then [label ++ " risk (−25)"]
    else if label = "Adjust Dosage" then ["Dose adjustment needed (−10)"] else []
  let p2 : ℤ :=
    if sev = "critical" then 8 else if sev = "high" then 5 else 0
  let rs2 : List String :=
    if sev = "critical" then ["Critical severity (−8)"]
    else if sev = "high" then ["High severity (−5)"] else []
  let p3 : ℤ := if conf < 0.5 then 4 else 0
  let rs3 : List String := if conf < 0.5 then ["Low confidence (−4)"] else []
  let p4 : ℤ := if variants = 0 then 3 else 0
  let rs4 : List String := if variants = 0 then ["No variants detected (−3)"] else []
  { drug := r.drug, riskLabel := label, penalty := p1 + p2 + p3 + p4,
    reasons := rs1 ++ rs2 ++ rs3 ++ rs4 }

/-- `computeSafetyIndex` from `safetyIndex.js`. -/
def computeSafetyIndex (results : List RiskResult) : SafetyIndexResult :=
  if results = [] then
    { score := 0, level := "unknown", color := "#94a3b8", breakdown := [] }
  else
    let sb := results.foldl
      (fun (acc : ℤ × List BreakdownEntry) r =>
        (acc.1 - (breakdownFor r).penalty, acc.2 ++ [breakdownFor r]))
      ((100 : ℤ), [])
    let score := max 0 (min 100 sb.1)
    { score := score,
      level := if score ≥ 80 then "Good" else if score ≥ 50 then "Moderate" else "At Risk",
      color := if score ≥ 80 then "#10b981" else if score ≥ 50 then "#f59e0b" else "#ef4444",
      breakdown := sb.2 }

/-- The spec-side per-drug penalty: one closed formula with the documented
deduction amounts, to be compared with the loop's accumulation. -/
def specPenalty (r : RiskResult) : ℤ :=
  (if r.risk_assessment.risk_label = "Toxic" ∨
      r.risk_assessment.risk_label = "Ineffective" then 25
   else if r.risk_assessment.risk_label = "Adjust Dosage" then 10 else 0)
  + (if r.risk_assessment.severity = "critical" then 8 else 0)
  + (if r.risk_assessment.severity = "high" then 5 else 0)
  + (if r.risk_assessment.confidence_score < 0.5 then 4 else 0)
  + (if r.pharmacogenomic_profile.detected_variants.length = 0 then 3 else 0)

/-! ## Population module (`populationData.js`) -/

/-- `FREQ_TABLE` from `populationData.js`. -/
def FREQ_TABLE : List (String × List (String × ℚ)) := [
  ("rs3892097", [("global", 0.20), ("south_asian", 0.12), ("east_asian", 0.01),
    ("african", 0.06), ("european", 0.22), ("other", 0.15)]),
  ("rs16947", [("global", 0.34), ("south_asian", 0.36), ("east_asian", 0.16),
    ("african", 0.35), ("european", 0.33), ("other", 0.30)]),
  ("rs35742686", [("global", 0.02), ("south_asian", 0.01), ("east_asian", 0.00),
    ("african", 0.01), ("european", 0.02), ("other", 0.01)]),
  ("rs4244285", [("global", 0.24), ("south_asian", 0.34), ("east_asian", 0.30),
    ("african", 0.17), ("european", 0.15), ("other", 0.22)]),
  ("rs12248560", [("global", 0.21), ("south_asian", 0.16), ("east_asian", 0.04),
    ("african", 0.24), ("european", 0.21), ("other", 0.18)]),
  ("rs1799853", [("global", 0.10), ("south_asian", 0.08), ("east_asian", 0.02),
    ("african", 0.02), ("european", 0.13), ("other", 0.08)]),
  ("rs1057910", [("global", 0.06), ("south_asian", 0.10), ("east_asian", 0.04),
    ("african", 0.01), ("european", 0.07), ("other", 0.05)]),
  ("rs4149056", [("global", 0.15), ("south_asian", 0.05), ("east_asian", 0.12),
    ("african", 0.02), ("european", 0.18), ("other", 0.12)]),
  ("rs2306283", [("global", 0.47), ("south_asian", 0.42), ("east_asian", 0.70),
    ("african", 0.77), ("european", 0.40), ("other", 0.50)]),
  ("rs1800460", [("global", 0.03), ("south_asian", 0.02), ("east_asian", 0.00),
    ("african", 0.01), ("european", 0.04), ("other", 0.02)]),
  ("rs1142345", [("global", 0.05), ("south_asian", 0.03), ("east_asian", 0.02),
    ("african", 0.08), ("european", 0.05), ("other", 0.04)]),
  ("rs3918290", [("global", 0.01), ("south_asian", 0.00), ("east_asian", 0.00),
    ("african", 0.00), ("european", 0.01), ("other", 0.005)]),
  ("rs67376798", [("global", 0.01), ("south_asian", 0.005), ("east_asian", 0.00),
    ("african", 0.005), ("european", 0.01), ("other", 0.005)])]

/-- `FREQ_TABLE[rsid]?.[ancestry] ?? FREQ_TABLE[rsid]?.global` — an exact
ancestry entry, else the global entry of the same row. -/
def lookupFreq (rsid ancestry : String) : Option ℚ :=
  match FREQ_TABLE.lookup rsid with
  | none => none
  | some row =>
    match row.lookup ancestry with
    | some f => some f
    | none => row.lookup "global"

/-- `isRareVariant` from `populationData.js`. -/
def isRareVariant (rsid ancestry : String) : Bool :=
  match lookupFreq rsid ancestry with
  | none => false
  | some f => decide (f < 0.01)

/-! ## Analyze route (`app/api/analyze/route.js`), rare-variant confidence
adjustment -/

/-- The number of rare-variant warnings attached to one result: one warning
per detected variant whose rsID is rare for the request's ancestry. -/
def rareWarningCount (detectedVars : List DetectedVariant) (ancestry : String) : ℕ :=
  (detectedVars.filter (fun v => isRareVariant v.rsid ancestry)).length

/-- The route's post-assessment confidence reduction: with at least one rare
warning, `Math.max(0.2, confidence - warnings * 0.05)`; otherwise the
confidence is left unchanged. -/
def adjustConfidence (confidence : ℚ) (warnings : ℕ) : ℚ :=
  if 0 < warnings then max 0.2 (confidence - (warnings : ℚ) * 0.05)
  else confidence
/-! ## What-if dose simulator (`whatIfSimulator.js`)

`simulateDoseChange` mutates a deep clone of its argument, so its frame
behaviour is modelled on an explicit heap of JavaScript objects: values are
primitives or references, objects are ordered field maps, an address is an
index into the heap list, and allocation appends.  Operations that would
raise a `TypeError` in strict-mode JavaScript return `none`; each fallible
statement of the source is one `match`.
-/

/-- A JavaScript value: a primitive, or a reference to a heap object. -/
inductive JVal where
  | null
  | undef
  | bool (b : Bool)
  | num (q : ℚ)
  | str (s : String)
  | ref (a : ℕ)
deriving DecidableEq, Repr

/-- A JavaScript object: an ordered association list of fields. -/
structure JObj where
  fields : List (String × JVal)
deriving DecidableEq, Repr

/-- A heap of JavaScript objects; addresses are list indices. -/
abbrev Heap := List JObj

/-- Dereference an address. -/
def getObj (h : Heap) (a : ℕ) : Option JObj := h[a]?

/-- Read a field of an object; a missing property reads as `undefined`. -/
def getFieldD (o : JObj) (key : String) : JVal :=
  (o.fields.lookup key).getD JVal.undef

/-- Assignment to a field: replace in place, or append a new field. -/
def setFieldList (fields : List (String × JVal)) (key : String) (v : JVal) :
    List (String × JVal) :=
  match fields with
  | [] => [(key, v)]
  | (k, w) :: rest =>
    if k = key then (key, v) :: rest
    else (k, w) :: setFieldList rest key v

/-- Property read `v.key`: reading through a reference; primitives read as
`undefined` (boxing); reading a property of `null`/`undefined` throws. -/
def getProp (h : Heap) (v : JVal) (key : String) : Option JVal :=
  match v with
  | JVal.ref a => (getObj h a).map (fun o => getFieldD o key)
  | JVal.null => none
  | JVal.undef => none
  | _ => some JVal.undef

/-- Property write `v.key = x`: only references are writable
(strict mode throws on primitives and on `null`/`undefined`). -/
def setProp (h : Heap) (v : JVal) (key : String) (x : JVal) : Option Heap :=
  match v with
  | JVal.ref a => (getObj h a).map (fun o => h.set a ⟨setFieldList o.fields key x⟩)
  | _ => none

/-- Two-step property read `r.key1.key2` from the object at address `r`. -/
def getPath2 (h : Heap) (r : ℕ) (key1 key2 : String) : Option JVal :=
  match getProp h (JVal.ref r) key1 with
  | none => none
  | some v1 => getProp h v1 key2

/-- Two-step property write `r.risk_assessment.key ← x`. -/
def setRAField (h : Heap) (r : ℕ) (key : String) (x : JVal) : Option Heap :=
  match getProp h (JVal.ref r) "risk_assessment" with
  | none => none
  | some v1 => setProp h v1 key x

/-- Copy the field lists of one object with a value-copying function
(the recursion of `JSON.parse(JSON.stringify(...))` over one object). -/
def copyFieldsWith (f : Heap → JVal → Option (Heap × JVal)) :
    Heap → List (String × JVal) → Option (Heap × List (String × JVal))
  | h, [] => some (h, [])
  | h, (k, v) :: rest =>
    match f h v with
    | none => none
    | some (h1, v') =>
      match copyFieldsWith f h1 rest with
      | none => none
      | some (h2, rest') => some (h2, (k, v') :: rest')

/-- Deep copy of a value (`JSON.parse(JSON.stringify(...))`): primitives are
copied verbatim, references allocate a fresh copy of the referenced object.
The fuel bounds the reference depth; exhaustion models `stringify` failing
on cyclic structures. -/
def copyVal : ℕ → Heap → JVal → Option (Heap × JVal)
  | _, h, JVal.null => some (h, JVal.null)
  | _, h, JVal.undef => some (h, JVal.undef)
  | _, h, JVal.bool b => some (h, JVal.bool b)
  | _, h, JVal.num q => some (h, JVal.num q)
  | _, h, JVal.str s => some (h, JVal.str s)
  | 0, _, JVal.ref _ => none
  | fuel + 1, h, JVal.ref a =>
    match getObj h a with
    | none => none
    | some o =>
      match copyFieldsWith (copyVal fuel) h o.fields with
      | none => none
      | some (h1, fl) => some (h1 ++ [⟨fl⟩], JVal.ref h1.length)

/-- The disclaimer attached to every simulated result. -/
def disclaimerText : String := "Simulated Recommendation — Not a Final Prescription"

/-- The final tagging of every branch:
`r._simulated = true; r._simulation = {...}` with the given literal fields. -/
def attachSimulation (h : Heap) (r : ℕ) (simFields : List (String × JVal)) :
    Option (Heap × ℕ) :=
  match setProp h (JVal.ref r) "_simulated" (JVal.bool true) with
  | none => none
  | some h1 =>
    match setProp (h1 ++ [(⟨simFields⟩ : JObj)]) (JVal.ref r) "_simulation"
      (JVal.ref h1.length) with
    | none => none
    | some h3 => some (h3, r)

/-- Coerce to a number; non-numbers are rejected (the source would produce
`NaN` there, which has no exact-rational counterpart). -/
def asNum (v : JVal) : Option ℚ :=
  match v with
  | JVal.num q => some q
  | _ => none

/-- Two consecutive writes to the clone's `risk_assessment`:
`risk_label` then `severity`. -/
def setLabelSeverity (h1 : Heap) (r : ℕ) (label severity : String) : Option Heap :=
  match setRAField h1 r "risk_label" (JVal.str label) with
  | none => none
  | some ha => setRAField ha r "severity" (JVal.str severity)

/-- `confidence = max(floor, confidence - sub)` read from and written to the
clone's `risk_assessment`. -/
def confWrite (h2 : Heap) (r : ℕ) (floor sub : ℚ) : Option Heap :=
  match getPath2 h2 r "risk_assessment" "confidence_score" with
  | none => none
  | some cv =>
    match asNum cv with
    | none => none
    | some c => setRAField h2 r "confidence_score" (JVal.num (max floor (c - sub)))

/-- The label transitions of the very-low-dose block (1–30%). -/
def lowBandLabelWrites (h1 : Heap) (r : ℕ) (labelV : JVal) : Option Heap :=
  if labelV = JVal.str "Toxic" then setLabelSeverity h1 r "Adjust Dosage" "moderate"
  else if labelV = JVal.str "Adjust Dosage" then setLabelSeverity h1 r "Safe" "low"
  else if labelV = JVal.str "Safe" then setLabelSeverity h1 r "Ineffective" "moderate"
  else some h1

/-- The label transitions of the low-dose block (31–60%). -/
def midBandLabelWrites (h1 : Heap) (r : ℕ) (labelV : JVal) : Option Heap :=
  if labelV = JVal.str "Toxic" then setLabelSeverity h1 r "Adjust Dosage" "moderate"
  else if labelV = JVal.str "Adjust Dosage" then
    setRAField h1 r "severity" (JVal.str "low")
  else some h1

/-- The very-low-dose block (1–30%): label transitions, then
`confidence = max(0.25, confidence - 0.10)`. -/
def applyLowBand (h1 : Heap) (r : ℕ) (labelV : JVal) : Option Heap :=
  match lowBandLabelWrites h1 r labelV with
  | none => none
  | some h2 => confWrite h2 r 0.25 0.10

/-- The low-dose block (31–60%): label transitions, then
`confidence = max(0.30, confidence - 0.05)`. -/
def applyMidBand (h1 : Heap) (r : ℕ) (labelV : JVal) : Option Heap :=
  match midBandLabelWrites h1 r labelV with
  | none => none
  | some h2 => confWrite h2 r 0.30 0.05

/-- The slightly-reduced-dose block (61–99%): only a Toxic label has its
severity softened. -/
def applyHighBand (h1 : Heap) (r : ℕ) (labelV : JVal) : Option Heap :=
  if labelV = JVal.str "Toxic" then
    setRAField h1 r "severity" (JVal.str "moderate")
  else some h1

/-- `simulateDoseChange` from `whatIfSimulator.js`, acting on the heap:
`origAddr` is the address of the original result object; on success the new
heap and the address of the simulated deep copy are returned. -/
def simulateDoseChange (h : Heap) (origAddr : ℕ) (dose : ℚ) :
    Option (Heap × ℕ) :=
  match copyVal (h.length + 1) h (JVal.ref origAddr) with
  | some (h1, JVal.ref r) =>
    let pct : ℚ := max 0 (min 100 dose)
    match getPath2 h1 r "risk_assessment" "risk_label" with
    | none => none
    | some labelV =>
      if pct = 100 then
        match getPath2 h1 origAddr "risk_assessment" "risk_label" with
        | none => none
        | some ol =>
          attachSimulation h1 r
            [("type", JVal.str "dose_change"), ("dose_percent", JVal.num pct),
             ("original_label", ol), ("disclaimer", JVal.str disclaimerText)]
      else if pct = 0 then
        match setRAField h1 r "risk_label" (JVal.str "Ineffective") with
        | none => none
        | some h2 =>
          match setRAField h2 r "severity" (JVal.str "high") with
          | none => none
          | some h3 =>
            match setRAField h3 r "confidence_score" (JVal.num 0.95) with
            | none => none
            | some h4 =>
              match getPath2 h4 origAddr "risk_assessment" "risk_label" with
              | none => none
              | some ol =>
                attachSimulation h4 r
                  [("type", JVal.str "dose_change"), ("dose_percent", JVal.num 0),
                   ("original_label", ol), ("disclaimer", JVal.str disclaimerText)]
      else
        match
          (if pct ≤ 30 then applyLowBand h1 r labelV
           else if pct ≤ 60 then applyMidBand h1 r labelV
           else applyHighBand h1 r labelV) with
        | none => none
        | some h5 =>
          match getPath2 h5 origAddr "risk_assessment" "risk_label" with
          | none => none
          | some ol =>
            match getPath2 h5 origAddr "risk_assessment" "confidence_score" with
            | none => none
            | some oc =>
              attachSimulation h5 r
                [("type", JVal.str "dose_change"), ("dose_percent", JVal.num pct),
                 ("original_label", ol), ("original_confidence", oc),
                 ("disclaimer", JVal.str disclaimerText)]
  | _ => none

/-- A closed heap: every reference stored in any object is a valid address. -/
def closedHeap (h : Heap) : Prop :=
  ∀ i o, getObj h i = some o → ∀ p ∈ o.fields, ∀ a, p.2 = JVal.ref a →
    a < h.length

/-- All objects at addresses `≥ k` only hold references to addresses `≥ k`
(and valid ones) — the copy and every subsequent write stay in this band. -/
def goodBand (k : ℕ) (h : Heap) : Prop :=
  ∀ i, k ≤ i → ∀ o, getObj h i = some o → ∀ p ∈ o.fields, ∀ a,
    p.2 = JVal.ref a → k ≤ a ∧ a < h.length

/-- A value whose references (if any) lie in the band `[k, len)`. -/
def valFresh (k len : ℕ) (v : JVal) : Prop :=
  ∀ a, v = JVal.ref a → k ≤ a ∧ a < len

/-- Addresses reachable from a root address by following stored references. -/
inductive Reach (h : Heap) (root : ℕ) : ℕ → Prop where
  | refl : Reach h root root
  | step {b c : ℕ} {o : JObj} {p : String × JVal} : Reach h root b →
      getObj h b = some o → p ∈ o.fields → p.2 = JVal.ref c → Reach h root c

/-- The invariant threaded through the simulator's writes: the heap prefix
that existed before the call (`h0`) is untouched, the heap only grew, every
object at-or-above `h0.length` refers only at-or-above `h0.length`, and the
working root `r` is a fresh valid address. -/
def SimInv (h0 h : Heap) (r : ℕ) : Prop :=
  (∀ i, i < h0.length → h[i]? = h0[i]?) ∧
  h0.length ≤ h.length ∧ goodBand h0.length h ∧ h0.length ≤ r ∧ r < h.length
/-! ## Concrete inputs used by closed theorems and witnesses -/

/-- A syntactically valid VCF file whose only data line carries no
pharmacogenomic variant. -/
def vcfNoPgx : String :=
  "##fileformat=VCFv4.2\n#CHROM\tPOS\tID\tREF\tALT\tQUAL\tFILTER\tINFO\n1\t12345\trs9999999\tA\tG\t50\tPASS\t."

/-- A detected variant whose rsID (`rs3918290`) has frequency 0.005 for the
`other` ancestry. -/
def dvRare : DetectedVariant :=
  { rsid := "rs3918290", chromosome := "1", position := some 97915614,
    ref_allele := "C", alt_allele := "T", genotype := "0/1",
    quality_score := some 99, gene := "DPYD", star_allele := some "*2A",
    functional_impact := "No function", annotation_source := "rsID_lookup" }

/-- A two-object risk-result heap: a root result at address 0 whose
`risk_assessment` lives at address 1. -/
def heapW : Heap :=
  [⟨[("risk_assessment", JVal.ref 1), ("drug", JVal.str "CODEINE")]⟩,
   ⟨[("risk_label", JVal.str "Safe"), ("confidence_score", JVal.num 0.8),
     ("severity", JVal.str "none")]⟩]

/-- A fixture: a Safe, none-severity result with confidence 0.8 and one
detected variant. -/
def safeResult : RiskResult :=
  buildResult
    { drug := "CODEINE", riskLabel := "Safe", confidence := 0.8,
      severity := "none", phenotype := "Normal Metabolizer",
      diplotype := "*1/*1", primaryGene := "CYP2D6",
      detectedVariants := [dvRare],
      recommendation := "Use codeine at standard dosing per clinical guidelines",
      dosingGuideline := "Standard dose as per label",
      explanation := "Normal CYP2D6 metabolism produces expected morphine levels" }

/-! ## Theorems -/

/-- Claim C3: `determinePhenotype` implements exactly the spec's two scales —
for `SLCO1B1`, activity score ≥ 2.0 gives Normal Function (`NF`), ≥ 1.0 gives
Decreased Function (`DF`), else Poor Function (`PF`); for every other gene,
score ≥ 2.25 gives Ultrarapid (`URM`), ≥ 1.5 gives Rapid (`RM`), ≥ 1.0 gives
Normal (`NM`), > 0 gives Intermediate (`IM`), and score 0 gives Poor (`PM`) —
for every activity score (modelled as an exact rational). -/
theorem determinePhenotype_scales (gene : String) (s : ℚ) :
    (gene = "SLCO1B1" →
      ((2.0 ≤ s → determinePhenotype gene s = "NF") ∧
       (1.0 ≤ s → s < 2.0 → determinePhenotype gene s = "DF") ∧
       (s < 1.0 → determinePhenotype gene s = "PF"))) ∧
    (gene ≠ "SLCO1B1" →
      ((2.25 ≤ s → determinePhenotype gene s = "URM") ∧
       (1.5 ≤ s → s < 2.25 → determinePhenotype gene s = "RM") ∧
       (1.0 ≤ s → s < 1.5 → determinePhenotype gene s = "NM") ∧
       (0 < s → s < 1.0 → determinePhenotype gene s = "IM") ∧
       (s = 0 → determinePhenotype gene s = "PM"))) := by
  constructor
  · intro hg
    refine ⟨fun h1 => ?_, fun h1 h2 => ?_, fun h1 => ?_⟩ <;>
      simp only [determinePhenotype, if_pos hg] <;>
      split_ifs <;> first | rfl | linarith
  · intro hg
    refine ⟨fun h1 => ?_, fun h1 h2 => ?_, fun h1 h2 => ?_, fun h1 h2 => ?_,
      fun h1 => ?_⟩ <;>
      simp only [determinePhenotype, if_neg hg] <;>
      split_ifs <;> first | rfl | linarith

/-- Witness for C3 at concrete inputs: score 2.0 is `RM` on the standard
scale (gene `CYP2D6`) and `NF` on the transporter scale. -/
theorem determinePhenotype_scales_witness :
    determinePhenotype "CYP2D6" 2.0 = "RM" ∧
    determinePhenotype "SLCO1B1" 2.0 = "NF" :=
  ⟨((determinePhenotype_scales "CYP2D6" 2.0).2 (by decide)).2.1
      (by norm_num) (by norm_num),
   ((determinePhenotype_scales "SLCO1B1" 2.0).1 rfl).1 (by norm_num)⟩

set_option maxRecDepth 40000 in
/-- Claim C1 (code bug): on a successfully parsed VCF file with zero
pharmacogenomic variants, `assessRisk` for `WARFARIN` returns diplotype
`*1/*1` as the claim states, but the default activity score 2.0 is classified
as `RM` (Rapid Metabolizer) by `determinePhenotype`, a code absent from
WARFARIN's risk map — so the result is phenotype "Rapid Metabolizer" with
risk label "Unknown", not "Normal Metabolizer"/"Safe". -/
theorem warfarin_no_variants_eval :
    (parseVCF vcfNoPgx).errors = [] ∧
    (parseVCF vcfNoPgx).variants = [] ∧
    (assessRisk (parseVCF vcfNoPgx).variants "WARFARIN").pharmacogenomic_profile.diplotype
      = "*1/*1" ∧
    (assessRisk (parseVCF vcfNoPgx).variants "WARFARIN").pharmacogenomic_profile.phenotype
      = "Rapid Metabolizer" ∧
    (assessRisk (parseVCF vcfNoPgx).variants "WARFARIN").risk_assessment.risk_label
      = "Unknown" := by
  with_unfolding_all decide

set_option maxRecDepth 40000 in
/-- Claim C2 (code bug): the resolver-derived phenotype for a supported drug
can miss that drug's risk map.  With zero gene variants the activity score is
2.0, `determinePhenotype "CYP2C9" 2.0 = "RM"`, WARFARIN's risk map has no
`RM` entry, and `assessRisk` takes the missing-phenotype fallback (label
"Unknown", confidence 0.1) for the supported drug WARFARIN. -/
theorem warfarin_rm_fallback :
    determinePhenotype "CYP2C9" 2.0 = "RM" ∧
    ((DRUG_GENE_MAP.lookup "WARFARIN").map
      (fun di => di.phenotypeRiskMap.lookup "RM")) = some none ∧
    (assessRisk (parseVCF vcfNoPgx).variants "WARFARIN").risk_assessment.risk_label
      = "Unknown" ∧
    (assessRisk (parseVCF vcfNoPgx).variants "WARFARIN").risk_assessment.confidence_score
      = 0.1 := by
  with_unfolding_all decide

/-- Claim C7: for every variant list and every drug name whose normalized
form (uppercased, trimmed) is absent from the drug-gene table, `assessRisk`
returns a result with risk label "Unknown", confidence score 0, severity
"none", and a recommendation naming the supported drug list. -/
theorem assessRisk_unknown_drug (variants : List Variant) (drugName : String)
    (h : DRUG_GENE_MAP.lookup (jsTrim (jsToUpper drugName)) = none) :
    (assessRisk variants drugName).risk_assessment.risk_label = "Unknown" ∧
    (assessRisk variants drugName).risk_assessment.confidence_score = 0 ∧
    (assessRisk variants drugName).risk_assessment.severity = "none" ∧
    (assessRisk variants drugName).clinical_recommendation.action =
      "Drug \"" ++ jsTrim (jsToUpper drugName) ++
        "\" is not in the supported drug list. Supported drugs: " ++
        String.intercalate ", " SUPPORTED_DRUGS := by
  simp only [assessRisk, h]
  exact ⟨rfl, rfl, rfl, rfl⟩

/-- Witness for C7 at the unsupported drug name `ASPIRIN`. -/
theorem assessRisk_unknown_drug_witness :
    (assessRisk [] "ASPIRIN").risk_assessment.risk_label = "Unknown" ∧
    (assessRisk [] "ASPIRIN").risk_assessment.confidence_score = 0 ∧
    (assessRisk [] "ASPIRIN").risk_assessment.severity = "none" ∧
    (assessRisk [] "ASPIRIN").clinical_recommendation.action =
      "Drug \"" ++ jsTrim (jsToUpper "ASPIRIN") ++
        "\" is not in the supported drug list. Supported drugs: " ++
        String.intercalate ", " SUPPORTED_DRUGS :=
  assessRisk_unknown_drug [] "ASPIRIN" (by decide)

/-- Claim C9: `isRareVariant` flags an rsID as rare exactly when the
looked-up frequency (exact ancestry entry, else the row's `global` entry) is
strictly below 0.01; an rsID absent from the table is never rare; the table
frequency 0.01 (`rs3892097`, `east_asian`) is not rare, and 0.005
(`rs3918290`, `other`) is rare. -/
theorem isRareVariant_spec (rsid ancestry : String) :
    (isRareVariant rsid ancestry = true ↔
      ∃ f, lookupFreq rsid ancestry = some f ∧ f < 0.01) ∧
    (FREQ_TABLE.lookup rsid = none → isRareVariant rsid ancestry = false) ∧
    isRareVariant "rs3892097" "east_asian" = false ∧
    isRareVariant "rs3918290" "other" = true := by
  refine ⟨?_, fun h => ?_, by with_unfolding_all decide, by with_unfolding_all decide⟩
  · unfold isRareVariant
    cases hf : lookupFreq rsid ancestry with
    | none => simp
    | some f => simp [decide_eq_true_iff]
  · simp [isRareVariant, lookupFreq, h]

/-- Witness for C9: an rsID absent from the frequency table is not rare. -/
theorem isRareVariant_spec_witness : isRareVariant "rs0" "global" = false :=
  (isRareVariant_spec "rs0" "global").2.1 (by decide)

/-- Claim C10: the analyze route reduces the reported confidence by 0.05 per
rare-variant warning, floored at 0.2; hence with at least one warning the
returned confidence is strictly below the engine's confidence unless the 0.2
floor is hit. -/
theorem adjustConfidence_spec (confidence : ℚ) (vars : List DetectedVariant)
    (ancestry : String) :
    (adjustConfidence confidence (rareWarningCount vars ancestry) =
      (if 0 < rareWarningCount vars ancestry then
        max 0.2 (confidence - (rareWarningCount vars ancestry : ℚ) * 0.05)
      else confidence)) ∧
    (0 < rareWarningCount vars ancestry →
      adjustConfidence confidence (rareWarningCount vars ancestry) < confidence ∨
      adjustConfidence confidence (rareWarningCount vars ancestry) = 0.2) := by
  refine ⟨rfl, fun hk => ?_⟩
  unfold adjustConfidence
  rw [if_pos hk]
  rcases le_or_lt (0.2 : ℚ) (confidence - (rareWarningCount vars ancestry : ℚ) * 0.05)
    with hle | hlt
  · left
    rw [max_eq_right hle]
    have h1 : (1 : ℚ) ≤ (rareWarningCount vars ancestry : ℚ) := by exact_mod_cast hk
    nlinarith
  · right
    rw [max_eq_left hlt.le]

/-- Witness for C10: one rare variant (`rs3918290`, ancestry `other`)
strictly lowers a confidence of 0.9, or hits the floor. -/
theorem adjustConfidence_spec_witness :
    adjustConfidence 0.9 (rareWarningCount [dvRare] "other") < 0.9 ∨
    adjustConfidence 0.9 (rareWarningCount [dvRare] "other") = 0.2 :=
  (adjustConfidence_spec 0.9 [dvRare] "other").2 (by with_unfolding_all decide)

/-- Two-decimal rounding is monotone. -/
theorem jsRound2_mono {a b : ℚ} (h : a ≤ b) : jsRound2 a ≤ jsRound2 b := by
  unfold jsRound2 jsRound
  have hf : ⌊a * 100 + 1/2⌋ ≤ ⌊b * 100 + 1/2⌋ := Int.floor_le_floor (by linarith)
  have hq : ((⌊a * 100 + 1/2⌋ : ℤ) : ℚ) ≤ ((⌊b * 100 + 1/2⌋ : ℤ) : ℚ) := by
    exact_mod_cast hf
  linarith

/-- The confidence formula stays nonnegative. -/
theorem confScore_nonneg (n sc : ℕ) (aq : ℚ) (hom : Bool) :
    0 ≤ confScore n sc aq hom := by
  simp only [confScore]
  have h1 : 0 ≤ min ((n : ℚ) * 0.10) 0.20 := le_min (by positivity) (by norm_num)
  have h2 : 0 ≤ (if sc = 1 then (0.10 : ℚ) else if 2 ≤ sc then 0.15 else 0) := by
    split_ifs <;> norm_num
  have h3 : 0 ≤ (if 0 < aq then min (aq / 100) 1 * 0.15 else (0 : ℚ)) := by
    split_ifs with hq
    · exact mul_nonneg (le_min (by positivity) (by norm_num)) (by norm_num)
    · exact le_refl 0
  have h4 : 0 ≤ (if hom then (0.05 : ℚ) else 0) := by split_ifs <;> norm_num
  have h5 : 0 ≤ (if 50 < aq then (0.05 : ℚ) else 0) := by split_ifs <;> norm_num
  have hc : 0 ≤ (0.35 : ℚ) + min ((n : ℚ) * 0.10) 0.20
      + (if sc = 1 then (0.10 : ℚ) else if 2 ≤ sc then 0.15 else 0)
      + (if 0 < aq then min (aq / 100) 1 * 0.15 else (0 : ℚ))
      + (if hom then (0.05 : ℚ) else 0)
      + (if 50 < aq then (0.05 : ℚ) else 0) := by linarith
  refine le_min ?_ (by norm_num)
  unfold jsRound2 jsRound
  have : (0 : ℤ) ≤ ⌊((0.35 : ℚ) + min ((n : ℚ) * 0.10) 0.20
      + (if sc = 1 then (0.10 : ℚ) else if 2 ≤ sc then 0.15 else 0)
      + (if 0 < aq then min (aq / 100) 1 * 0.15 else (0 : ℚ))
      + (if hom then (0.05 : ℚ) else 0)
      + (if 50 < aq then (0.05 : ℚ) else 0)) * 100 + 1/2⌋ := by
    refine Int.le_floor.mpr ?_
    push_cast
    nlinarith
  have hcast : (0 : ℚ) ≤ (((⌊((0.35 : ℚ) + min ((n : ℚ) * 0.10) 0.20
      + (if sc = 1 then (0.10 : ℚ) else if 2 ≤ sc then 0.15 else 0)
      + (if 0 < aq then min (aq / 100) 1 * 0.15 else (0 : ℚ))
      + (if hom then (0.05 : ℚ) else 0)
      + (if 50 < aq then (0.05 : ℚ) else 0)) * 100 + 1/2⌋ : ℤ)) : ℚ) := by
    exact_mod_cast this
  linarith

/-- The confidence formula is capped at 0.95. -/
theorem confScore_le (n sc : ℕ) (aq : ℚ) (hom : Bool) :
    confScore n sc aq hom ≤ 0.95 := by
  simp only [confScore]
  exact min_le_right _ _

/-- The confidence formula is monotone in the variant count, all other
inputs fixed. -/
theorem confScore_mono {n m : ℕ} (sc : ℕ) (aq : ℚ) (hom : Bool) (h : n ≤ m) :
    confScore n sc aq hom ≤ confScore m sc aq hom := by
  simp only [confScore]
  refine min_le_min (jsRound2_mono ?_) le_rfl
  have hnm : (n : ℚ) ≤ (m : ℚ) := by exact_mod_cast h
  have : min ((n : ℚ) * 0.10) 0.20 ≤ min ((m : ℚ) * 0.10) 0.20 :=
    min_le_min (by nlinarith) le_rfl
  linarith

/-- Claim C5: the confidence score always lies in [0, 0.95] and — holding
star-allele count, average quality and homozygosity fixed — is monotonically
non-decreasing in the variant count.  The last conjunct ties
`calculateConfidence` to the formula `confScore` of those four quantities. -/
theorem calculateConfidence_spec :
    (∀ (gv : List Variant) (da : List String),
      0 ≤ (calculateConfidence gv da).score ∧
      (calculateConfidence gv da).score ≤ 0.95) ∧
    (∀ (n m sc : ℕ) (aq : ℚ) (hom : Bool), n ≤ m →
      confScore n sc aq hom ≤ confScore m sc aq hom) ∧
    (∀ (gv : List Variant) (da : List String),
      (calculateConfidence gv da).score =
        confScore gv.length da.length (avgQualOf gv) (gv.any isHomozygousVariant)) :=
  ⟨fun gv da =>
    ⟨confScore_nonneg gv.length da.length (avgQualOf gv) (gv.any isHomozygousVariant),
     confScore_le gv.length da.length (avgQualOf gv) (gv.any isHomozygousVariant)⟩,
   fun _ _ sc aq hom h => confScore_mono sc aq hom h,
   fun _ _ => rfl⟩

/-- Witness for C5: monotonicity applied at variant counts 1 ≤ 3. -/
theorem calculateConfidence_spec_witness :
    confScore 1 1 (80 : ℚ) true ≤ confScore 3 1 (80 : ℚ) true :=
  calculateConfidence_spec.2.1 1 3 1 80 true (by norm_num)

/-- The safety-index loop computes `init` minus the sum of the per-drug
penalties. -/
theorem safety_foldl (rs : List RiskResult) : ∀ (init : ℤ) (acc : List BreakdownEntry),
    (rs.foldl
      (fun (a : ℤ × List BreakdownEntry) r =>
        (a.1 - (breakdownFor r).penalty, a.2 ++ [breakdownFor r]))
      (init, acc)).1 =
    init - (rs.map (fun r => (breakdownFor r).penalty)).sum := by
  induction rs with
  | nil => intro init acc; simp
  | cons r t ih =>
    intro init acc
    simp only [List.foldl_cons, List.map_cons, List.sum_cons, ih]
    ring

/-- The loop's per-drug penalty equals the closed spec formula. -/
theorem breakdownFor_penalty (r : RiskResult) :
    (breakdownFor r).penalty = specPenalty r := by
  simp only [breakdownFor, specPenalty]
  split_ifs <;> simp_all

/-- Claim C6: `computeSafetyIndex` returns score 0 with level "unknown" for
an empty result list; otherwise the score is 100 minus the sum of the
documented per-drug penalties, with only the aggregate clamped to [0, 100];
and a single Safe, none-severity, confidence ≥ 0.5, ≥ 1-variant result
scores exactly 100. -/
theorem computeSafetyIndex_spec (results : List RiskResult) :
    (results = [] → computeSafetyIndex results =
      ⟨0, "unknown", "#94a3b8", []⟩) ∧
    (results ≠ [] → (computeSafetyIndex results).score =
      max 0 (min 100 (100 - (results.map specPenalty).sum))) ∧
    (∀ r : RiskResult, r.risk_assessment.risk_label = "Safe" →
      r.risk_assessment.severity = "none" →
      (0.5 : ℚ) ≤ r.risk_assessment.confidence_score →
      r.pharmacogenomic_profile.detected_variants.length ≠ 0 →
      (computeSafetyIndex [r]).score = 100) := by
  have hpen : ∀ r : RiskResult, r.risk_assessment.risk_label = "Safe" →
      r.risk_assessment.severity = "none" →
      (0.5 : ℚ) ≤ r.risk_assessment.confidence_score →
      r.pharmacogenomic_profile.detected_variants.length ≠ 0 →
      specPenalty r = 0 := by
    intro r h1 h2 h3 h4
    simp only [specPenalty, h1, h2]
    rw [if_neg (by simp), if_neg (by simp), if_neg (by simp), if_neg (by simp),
      if_neg (not_lt.mpr h3), if_neg h4]
    decide
  refine ⟨fun he => by rw [he]; rfl, fun hne => ?_, fun r h1 h2 h3 h4 => ?_⟩
  · simp only [computeSafetyIndex, if_neg hne]
    rw [safety_foldl]
    simp only [breakdownFor_penalty]
  · have hz := hpen r h1 h2 h3 h4
    have hne2 : ([r] : List RiskResult) ≠ [] := by simp
    simp only [computeSafetyIndex, if_neg hne2]
    rw [safety_foldl]
    simp only [List.map_cons, List.map_nil, List.sum_cons, List.sum_nil,
      breakdownFor_penalty, hz]
    decide

/-- Witness for C6: the fixture Safe result scores exactly 100. -/
theorem computeSafetyIndex_spec_witness :
    (computeSafetyIndex [safeResult]).score = 100 :=
  (computeSafetyIndex_spec [safeResult]).2.2 safeResult rfl rfl
    (by with_unfolding_all decide) (by with_unfolding_all decide)

/-- A list is an initial segment of its own extension. -/
theorem isPreList_append (p r : List Char) : isPreList p (p ++ r) = true := by
  induction p with
  | nil => rfl
  | cons a as ih => simp [isPreList, ih]

/-- The fail-fast header error differs from every per-line error. -/
theorem headerMsg_ne_lineError (i n : ℕ) : headerErrorMsg ≠ lineErrorMsg i n := by
  intro h
  have hcg : (false : Bool) = true := congrArg (jsStartsWith "Line ") h
  exact Bool.noConfusion hcg

/-- One loop step either keeps the error list or appends one per-line
error. -/
theorem processLine_errors (lk : List (String × List RsidMatch)) (kg : List String)
    (st : ParseState) (idx : ℕ) (line : String) :
    (processLine lk kg st idx line).errors = st.errors ∨
    (processLine lk kg st idx line).errors =
      st.errors ++ [lineErrorMsg (idx + 1) (jsSplitChar '\t' (jsTrim line)).length] := by
  unfold processLine
  dsimp only
  split_ifs
  · exact Or.inl rfl
  · exact Or.inl rfl
  · exact Or.inl rfl
  · exact Or.inl rfl
  · exact Or.inr rfl
  · left
    split <;> rfl

/-- The whole parsing loop never emits the fail-fast header error. -/
theorem foldl_errors (lk : List (String × List RsidMatch)) (kg : List String)
    (ps : List (ℕ × String)) (st : ParseState)
    (h : headerErrorMsg ∉ st.errors) :
    headerErrorMsg ∉
      (ps.foldl (fun s (p : ℕ × String) => processLine lk kg s p.1 p.2) st).errors := by
  induction ps generalizing st with
  | nil => exact h
  | cons p t ih =>
    apply ih
    rcases processLine_errors lk kg st p.1 p.2 with he | he
    · rw [he]; exact h
    · rw [he]
      intro hmem
      rcases List.mem_append.mp hmem with h1 | h1
      · exact h h1
      · exact headerMsg_ne_lineError (p.1 + 1) _ (List.mem_singleton.mp h1)

/-- Claim C4 (amended): `parseVCF` fails fast — empty variant list plus the
single header error — exactly when the literal first line of the input (not
the first non-empty line) does not start with `##fileformat=VCF`; when the
first line does start with that token the header check passes, the file
format is recorded, and the header error is never among the returned
errors. -/
theorem parseVCF_header_gate (c : String) :
    (¬ jsStartsWith "##fileformat=VCF" ((splitLinesJS c).headD "") = true →
      parseVCF c = ⟨[], ⟨none, [], [], 0, 0⟩, [headerErrorMsg]⟩) ∧
    (jsStartsWith "##fileformat=VCF" ((splitLinesJS c).headD "") = true →
      (parseVCF c).metadata.fileformat.isSome = true ∧
      headerErrorMsg ∉ (parseVCF c).errors) := by
  constructor
  · intro hn
    simp only [parseVCF]
    rw [if_pos hn]
  · intro hp
    simp only [parseVCF]
    rw [if_neg (not_not_intro hp)]
    refine ⟨rfl, ?_⟩
    show headerErrorMsg ∉
      (if (((splitLinesJS c).enum).foldl
          (fun st (p : ℕ × String) =>
            processLine buildRsidLookup (GENE_DEFINITIONS.map Prod.fst) st p.1 p.2)
          initParseState).headerSeen
        then (((splitLinesJS c).enum).foldl
          (fun st (p : ℕ × String) =>
            processLine buildRsidLookup (GENE_DEFINITIONS.map Prod.fst) st p.1 p.2)
          initParseState).errors
        else (((splitLinesJS c).enum).foldl
          (fun st (p : ℕ × String) =>
            processLine buildRsidLookup (GENE_DEFINITIONS.map Prod.fst) st p.1 p.2)
          initParseState).errors ++ [noHeaderLineMsg])
    have hbase : headerErrorMsg ∉ initParseState.errors := by
      simp [initParseState]
    have hloop := foldl_errors buildRsidLookup (GENE_DEFINITIONS.map Prod.fst)
      ((splitLinesJS c).enum) initParseState hbase
    split_ifs
    · exact hloop
    · intro hmem
      rcases List.mem_append.mp hmem with h1 | h1
      · exact hloop h1
      · have := List.mem_singleton.mp h1
        exact absurd this (by decide)

/-- Witness for C4: a file whose first line carries the format token passes
the header check and its error list never holds the header error. -/
theorem parseVCF_header_gate_witness :
    (parseVCF "##fileformat=VCFv4.2").metadata.fileformat.isSome = true ∧
    headerErrorMsg ∉ (parseVCF "##fileformat=VCFv4.2").errors :=
  (parseVCF_header_gate "##fileformat=VCFv4.2").2 (by decide)

set_option maxRecDepth 40000 in
/-- Claim C4 counterexample: for the input whose first line is empty and
whose second line is `##fileformat=VCFv4.2`, the first non-empty line begins
with the file-format token, yet `parseVCF` fails fast with the header error
and an empty variant list — the source checks the literal first line, not
the first non-empty one. -/
theorem parseVCF_header_counterexample :
    firstNonEmptyLine "\n##fileformat=VCFv4.2" = some "##fileformat=VCFv4.2" ∧
    jsStartsWith "##fileformat=VCF" "##fileformat=VCFv4.2" = true ∧
    (parseVCF "\n##fileformat=VCFv4.2").variants = [] ∧
    (parseVCF "\n##fileformat=VCFv4.2").errors = [headerErrorMsg] := by
  decide
/-! ### Heap lemmas for the dose simulator -/

/-- Primitive values hold no references. -/
theorem valFresh_str (k len : ℕ) (s : String) : valFresh k len (JVal.str s) := by
  intro a ha; cases ha

/-- Primitive values hold no references. -/
theorem valFresh_num (k len : ℕ) (q : ℚ) : valFresh k len (JVal.num q) := by
  intro a ha; cases ha

/-- Primitive values hold no references. -/
theorem valFresh_bool (k len : ℕ) (b : Bool) : valFresh k len (JVal.bool b) := by
  intro a ha; cases ha

/-- Freshness is monotone in the heap length bound. -/
theorem valFresh_mono {k len len' : ℕ} {v : JVal} (h : len ≤ len')
    (hv : valFresh k len v) : valFresh k len' v := by
  intro a ha
  exact ⟨(hv a ha).1, lt_of_lt_of_le (hv a ha).2 h⟩

/-- A successful association-list lookup is a member. -/
theorem lookup_mem {l : List (String × JVal)} {k : String} {v : JVal}
    (h : l.lookup k = some v) : (k, v) ∈ l := by
  induction l with
  | nil => cases h
  | cons p t ih =>
    obtain ⟨a, b⟩ := p
    cases hk : (k == a) with
    | true =>
      simp only [List.lookup, hk] at h
      cases h
      have hka : k = a := by simpa using hk
      subst hka
      exact List.mem_cons_self _ _
    | false =>
      simp only [List.lookup, hk] at h
      exact List.mem_cons_of_mem _ (ih h)

/-- A field of an updated field list is an old field or carries the written
value. -/
theorem setFieldList_mem {fields : List (String × JVal)} {key : String} {v : JVal}
    {p : String × JVal} (hp : p ∈ setFieldList fields key v) :
    p ∈ fields ∨ p.2 = v := by
  induction fields with
  | nil =>
    simp only [setFieldList, List.mem_singleton] at hp
    subst hp
    exact Or.inr rfl
  | cons q t ih =>
    obtain ⟨a, b⟩ := q
    simp only [setFieldList] at hp
    by_cases hk : a = key
    · rw [if_pos hk] at hp
      rcases List.mem_cons.mp hp with h1 | h1
      · subst h1; exact Or.inr rfl
      · exact Or.inl (List.mem_cons_of_mem _ h1)
    · rw [if_neg hk] at hp
      rcases List.mem_cons.mp hp with h1 | h1
      · subst h1; exact Or.inl (List.mem_cons_self _ _)
      · rcases ih h1 with h2 | h2
        · exact Or.inl (List.mem_cons_of_mem _ h2)
        · exact Or.inr h2

/-- A field read yields `undefined` or a value stored in the object. -/
theorem getFieldD_cases (o : JObj) (key : String) :
    getFieldD o key = JVal.undef ∨ (key, getFieldD o key) ∈ o.fields := by
  unfold getFieldD
  cases hl : o.fields.lookup key with
  | none => exact Or.inl rfl
  | some v => exact Or.inr (lookup_mem hl)

/-- A heap is a good band above its own length (vacuously). -/
theorem goodBand_self (h : Heap) : goodBand h.length h := by
  intro i hi o ho
  rw [show getObj h i = none from List.getElem?_eq_none hi] at ho
  cases ho

/-- Extending a heap by an object whose references are fresh preserves the
band. -/
theorem goodBand_append {k : ℕ} {h : Heap} {o : JObj} (_hk : k ≤ h.length)
    (hgb : goodBand k h)
    (ho : ∀ p ∈ o.fields, valFresh k h.length p.2) : goodBand k (h ++ [o]) := by
  intro i hi o' ho' p hp a hpa
  rcases lt_trichotomy i h.length with hlt | heq | hgt
  · rw [show getObj (h ++ [o]) i = getObj h i from List.getElem?_append_left hlt] at ho'
    have := hgb i hi o' ho' p hp a hpa
    simp only [List.length_append, List.length_singleton]
    omega
  · subst heq
    rw [show getObj (h ++ [o]) h.length = some o from
      List.getElem?_concat_length h o] at ho'
    cases ho'
    have h2 := ho p hp a hpa
    simp only [List.length_append, List.length_singleton]
    omega
  · rw [show getObj (h ++ [o]) i = none from List.getElem?_eq_none (by
      simp only [List.length_append, List.length_singleton]; omega)] at ho'
    cases ho'

/-- Within a good band, reachability from a banded root stays in the band. -/
theorem reach_ge {k : ℕ} {h : Heap} {r : ℕ} (hgb : goodBand k h) (hr : k ≤ r) :
    ∀ a, Reach h r a → k ≤ a := by
  intro a hra
  induction hra with
  | refl => exact hr
  | step hb ho hp hpa ih => exact (hgb _ ih _ ho _ hp _ hpa).1

/-- In a closed heap, reachability from a valid root stays valid. -/
theorem reach_lt {h : Heap} {r : ℕ} (hc : closedHeap h) (hr : r < h.length) :
    ∀ a, Reach h r a → a < h.length := by
  intro a hra
  induction hra with
  | refl => exact hr
  | step hb ho hp hpa ih => exact hc _ _ ho _ hp _ hpa

/-- Field-list copy: the heap only grows, the old part is untouched, the
band is preserved, and every copied field value is fresh. -/
theorem copyFields_spec (f : Heap → JVal → Option (Heap × JVal))
    (hf : ∀ (h : Heap) (v : JVal) (h' : Heap) (v' : JVal),
      f h v = some (h', v') → ∀ k, k ≤ h.length → goodBand k h →
      (∀ i, i < h.length → h'[i]? = h[i]?) ∧
      h.length ≤ h'.length ∧ goodBand k h' ∧ valFresh k h'.length v') :
    ∀ (fl : List (String × JVal)) (h h' : Heap) (fl' : List (String × JVal)),
    copyFieldsWith f h fl = some (h', fl') → ∀ k, k ≤ h.length → goodBand k h →
    (∀ i, i < h.length → h'[i]? = h[i]?) ∧
    h.length ≤ h'.length ∧ goodBand k h' ∧
    (∀ p ∈ fl', valFresh k h'.length p.2) := by
  intro fl
  induction fl with
  | nil =>
    intro h h' fl' heq k hk hgb
    simp only [copyFieldsWith, Option.some.injEq, Prod.mk.injEq] at heq
    obtain ⟨rfl, rfl⟩ := heq
    exact ⟨fun i _ => rfl, le_refl _, hgb, by simp⟩
  | cons p t ih =>
    intro h h' fl' heq k hk hgb
    obtain ⟨key, v⟩ := p
    rw [copyFieldsWith] at heq
    cases hf1 : f h v with
    | none => simp only [hf1] at heq; cases heq
    | some hv1 =>
      obtain ⟨h1, v1⟩ := hv1
      simp only [hf1] at heq
      cases hf2 : copyFieldsWith f h1 t with
      | none => simp only [hf2] at heq; cases heq
      | some ht2 =>
        obtain ⟨h2, t'⟩ := ht2
        simp only [hf2, Option.some.injEq, Prod.mk.injEq] at heq
        obtain ⟨rfl, rfl⟩ := heq
        obtain ⟨low1, len1, band1, fresh1⟩ := hf h v h1 v1 hf1 k hk hgb
        obtain ⟨low2, len2, band2, fresh2⟩ := ih h1 h2 t' hf2 k (le_trans hk len1) band1
        refine ⟨?_, le_trans len1 len2, band2, ?_⟩
        · intro i hi
          rw [low2 i (lt_of_lt_of_le hi len1), low1 i hi]
        · intro q hq
          rcases List.mem_cons.mp hq with h1' | h1'
          · subst h1'
            exact valFresh_mono len2 fresh1
          · exact fresh2 q h1'

/-- Value copy (`JSON.parse(JSON.stringify(...))`): the heap only grows, the
old part is untouched, the band is preserved, and the result value is
fresh. -/
theorem copyVal_spec : ∀ (fuel : ℕ) (h : Heap) (v : JVal) (h' : Heap) (v' : JVal),
    copyVal fuel h v = some (h', v') → ∀ k, k ≤ h.length → goodBand k h →
    (∀ i, i < h.length → h'[i]? = h[i]?) ∧
    h.length ≤ h'.length ∧ goodBand k h' ∧ valFresh k h'.length v' := by
  intro fuel
  induction fuel with
  | zero =>
    intro h v h' v' heq k hk hgb
    cases v
    case ref a => rw [copyVal] at heq; cases heq
    all_goals
      simp only [copyVal, Option.some.injEq, Prod.mk.injEq] at heq
      obtain ⟨rfl, rfl⟩ := heq
      exact ⟨fun i _ => rfl, le_refl _, hgb, fun a ha => by cases ha⟩
  | succ fuel ih =>
    intro h v h' v' heq k hk hgb
    cases v with
    | ref a =>
      rw [copyVal] at heq
      cases ho : getObj h a with
      | none => simp only [ho] at heq; cases heq
      | some o =>
        simp only [ho] at heq
        cases hfl : copyFieldsWith (copyVal fuel) h o.fields with
        | none => simp only [hfl] at heq; cases heq
        | some hfl1 =>
          obtain ⟨h1, fl⟩ := hfl1
          simp only [hfl, Option.some.injEq, Prod.mk.injEq] at heq
          obtain ⟨rfl, rfl⟩ := heq
          obtain ⟨low1, len1, band1, fresh1⟩ :=
            copyFields_spec (copyVal fuel) ih o.fields h h1 fl hfl k hk hgb
          refine ⟨?_, ?_, ?_, ?_⟩
          · intro i hi
            rw [show (h1 ++ [(⟨fl⟩ : JObj)])[i]? = h1[i]? from
              List.getElem?_append_left (lt_of_lt_of_le hi len1)]
            exact low1 i hi
          · simp only [List.length_append, List.length_singleton]
            omega
          · exact goodBand_append (le_trans hk len1) band1 fresh1
          · intro b hb
            cases hb
            simp only [List.length_append, List.length_singleton]
            constructor
            · omega
            · omega
    | null =>
      simp only [copyVal, Option.some.injEq, Prod.mk.injEq] at heq
      obtain ⟨rfl, rfl⟩ := heq
      exact ⟨fun i _ => rfl, le_refl _, hgb, fun b hb => by cases hb⟩
    | undef =>
      simp only [copyVal, Option.some.injEq, Prod.mk.injEq] at heq
      obtain ⟨rfl, rfl⟩ := heq
      exact ⟨fun i _ => rfl, le_refl _, hgb, fun b hb => by cases hb⟩
    | bool b =>
      simp only [copyVal, Option.some.injEq, Prod.mk.injEq] at heq
      obtain ⟨rfl, rfl⟩ := heq
      exact ⟨fun i _ => rfl, le_refl _, hgb, fun b hb => by cases hb⟩
    | num q =>
      simp only [copyVal, Option.some.injEq, Prod.mk.injEq] at heq
      obtain ⟨rfl, rfl⟩ := heq
      exact ⟨fun i _ => rfl, le_refl _, hgb, fun b hb => by cases hb⟩
    | str s =>
      simp only [copyVal, Option.some.injEq, Prod.mk.injEq] at heq
      obtain ⟨rfl, rfl⟩ := heq
      exact ⟨fun i _ => rfl, le_refl _, hgb, fun b hb => by cases hb⟩

/-- A successful property write on a banded heap: same length, the part
below the band untouched, band preserved when the written value is fresh. -/
theorem setProp_spec {h : Heap} {v : JVal} {key : String} {x : JVal} {h' : Heap}
    {k : ℕ} (heq : setProp h v key x = some h')
    (htgt : ∀ t, v = JVal.ref t → k ≤ t)
    (hgb : goodBand k h) (hx : valFresh k h.length x) :
    h'.length = h.length ∧ (∀ i, i < k → h'[i]? = h[i]?) ∧ goodBand k h' := by
  cases v with
  | ref t =>
    simp only [setProp, Option.map_eq_some'] at heq
    obtain ⟨o, ho, rfl⟩ := heq
    have hkt : k ≤ t := htgt t rfl
    have htlen : t < h.length := by
      by_contra hcon
      rw [show getObj h t = none from List.getElem?_eq_none (le_of_not_lt hcon)] at ho
      cases ho
    refine ⟨List.length_set h t _, ?_, ?_⟩
    · intro i hi
      exact List.getElem?_set_ne (by omega)
    · intro i hi o' ho' p hp a hpa
      rw [List.length_set]
      by_cases hit : t = i
      · subst hit
        rw [show getObj (h.set t ⟨setFieldList o.fields key x⟩) t =
            some ⟨setFieldList o.fields key x⟩ from List.getElem?_set_self htlen] at ho'
        cases ho'
        rcases setFieldList_mem hp with hold | hnew
        · exact hgb t hkt o ho p hold a hpa
        · rw [hnew] at hpa
          exact hx a hpa
      · rw [show getObj (h.set t ⟨setFieldList o.fields key x⟩) i = getObj h i from
          List.getElem?_set_ne hit] at ho'
        exact hgb i hi o' ho' p hp a hpa
  | null => cases heq
  | undef => cases heq
  | bool b => cases heq
  | num q => cases heq
  | str s => cases heq

/-- A property read from a banded object yields only banded references. -/
theorem getProp_band {h : Heap} {r : ℕ} {key : String} {w : JVal} {k : ℕ}
    (hgb : goodBand k h) (hr : k ≤ r)
    (heq : getProp h (JVal.ref r) key = some w) :
    ∀ t, w = JVal.ref t → k ≤ t ∧ t < h.length := by
  simp only [getProp, Option.map_eq_some'] at heq
  obtain ⟨o, ho, rfl⟩ := heq
  intro t ht
  rcases getFieldD_cases o key with hcase | hcase
  · rw [hcase] at ht; cases ht
  · exact hgb r hr o ho (key, getFieldD o key) hcase t ht

/-- A successful `risk_assessment` field write on a banded heap. -/
theorem setRAField_spec {h : Heap} {r : ℕ} {key : String} {x : JVal} {h' : Heap}
    {k : ℕ} (heq : setRAField h r key x = some h') (hgb : goodBand k h)
    (hr : k ≤ r) (hx : valFresh k h.length x) :
    h'.length = h.length ∧ (∀ i, i < k → h'[i]? = h[i]?) ∧ goodBand k h' := by
  rw [setRAField] at heq
  cases hv : getProp h (JVal.ref r) "risk_assessment" with
  | none => simp only [hv] at heq; cases heq
  | some v1 =>
    simp only [hv] at heq
    exact setProp_spec heq (fun t ht => (getProp_band hgb hr hv t ht).1) hgb hx

/-- `setRAField` preserves the simulator invariant. -/
theorem setRAField_inv {h0 h h' : Heap} {r : ℕ} {key : String} {x : JVal}
    (inv : SimInv h0 h r) (hx : valFresh h0.length h.length x)
    (heq : setRAField h r key x = some h') : SimInv h0 h' r := by
  obtain ⟨low, len, band, hkr, hrlen⟩ := inv
  obtain ⟨hlen, hlow, hband⟩ := setRAField_spec heq band hkr hx
  exact ⟨fun i hi => (hlow i hi).trans (low i hi), by omega, hband, hkr, by omega⟩

/-- `setLabelSeverity` preserves the simulator invariant. -/
theorem setLabelSeverity_inv {h0 h h' : Heap} {r : ℕ} {label severity : String}
    (inv : SimInv h0 h r) (heq : setLabelSeverity h r label severity = some h') :
    SimInv h0 h' r := by
  rw [setLabelSeverity] at heq
  cases ha : setRAField h r "risk_label" (JVal.str label) with
  | none => simp only [ha] at heq; cases heq
  | some hh =>
    simp only [ha] at heq
    exact setRAField_inv (setRAField_inv inv (valFresh_str _ _ _) ha)
      (valFresh_str _ _ _) heq

/-- `confWrite` preserves the simulator invariant. -/
theorem confWrite_inv {h0 h h' : Heap} {r : ℕ} {floor sub : ℚ}
    (inv : SimInv h0 h r) (heq : confWrite h r floor sub = some h') :
    SimInv h0 h' r := by
  rw [confWrite] at heq
  cases hcv : getPath2 h r "risk_assessment" "confidence_score" with
  | none => simp only [hcv] at heq; cases heq
  | some cv =>
    simp only [hcv] at heq
    cases hc : asNum cv with
    | none => simp only [hc] at heq; cases heq
    | some c =>
      simp only [hc] at heq
      exact setRAField_inv inv (valFresh_num _ _ _) heq

/-- `lowBandLabelWrites` preserves the simulator invariant. -/
theorem lowBandLabelWrites_inv {h0 h h' : Heap} {r : ℕ} {labelV : JVal}
    (inv : SimInv h0 h r) (heq : lowBandLabelWrites h r labelV = some h') :
    SimInv h0 h' r := by
  rw [lowBandLabelWrites] at heq
  split_ifs at heq
  · exact setLabelSeverity_inv inv heq
  · exact setLabelSeverity_inv inv heq
  · exact setLabelSeverity_inv inv heq
  · cases heq; exact inv

/-- `midBandLabelWrites` preserves the simulator invariant. -/
theorem midBandLabelWrites_inv {h0 h h' : Heap} {r : ℕ} {labelV : JVal}
    (inv : SimInv h0 h r) (heq : midBandLabelWrites h r labelV = some h') :
    SimInv h0 h' r := by
  rw [midBandLabelWrites] at heq
  split_ifs at heq
  · exact setLabelSeverity_inv inv heq
  · exact setRAField_inv inv (valFresh_str _ _ _) heq
  · cases heq; exact inv

/-- `applyLowBand` preserves the simulator invariant. -/
theorem applyLowBand_inv {h0 h h' : Heap} {r : ℕ} {labelV : JVal}
    (inv : SimInv h0 h r) (heq : applyLowBand h r labelV = some h') :
    SimInv h0 h' r := by
  rw [applyLowBand] at heq
  cases hw : lowBandLabelWrites h r labelV with
  | none => simp only [hw] at heq; cases heq
  | some h2 =>
    simp only [hw] at heq
    exact confWrite_inv (lowBandLabelWrites_inv inv hw) heq

/-- `applyMidBand` preserves the simulator invariant. -/
theorem applyMidBand_inv {h0 h h' : Heap} {r : ℕ} {labelV : JVal}
    (inv : SimInv h0 h r) (heq : applyMidBand h r labelV = some h') :
    SimInv h0 h' r := by
  rw [applyMidBand] at heq
  cases hw : midBandLabelWrites h r labelV with
  | none => simp only [hw] at heq; cases heq
  | some h2 =>
    simp only [hw] at heq
    exact confWrite_inv (midBandLabelWrites_inv inv hw) heq

/-- `applyHighBand` preserves the simulator invariant. -/
theorem applyHighBand_inv {h0 h h' : Heap} {r : ℕ} {labelV : JVal}
    (inv : SimInv h0 h r) (heq : applyHighBand h r labelV = some h') :
    SimInv h0 h' r := by
  rw [applyHighBand] at heq
  split_ifs at heq
  · exact setRAField_inv inv (valFresh_str _ _ _) heq
  · cases heq; exact inv

/-- `attachSimulation` preserves the simulator invariant when the simulation
object's fields are primitive or fresh, and returns the same root. -/
theorem attachSimulation_inv {h0 h h' : Heap} {r r' : ℕ}
    {fl : List (String × JVal)} (inv : SimInv h0 h r)
    (hfl : ∀ p ∈ fl, valFresh h0.length h.length p.2)
    (heq : attachSimulation h r fl = some (h', r')) :
    SimInv h0 h' r' ∧ r' = r := by
  obtain ⟨low, len, band, hkr, hrlen⟩ := inv
  rw [attachSimulation] at heq
  cases h1eq : setProp h (JVal.ref r) "_simulated" (JVal.bool true) with
  | none => simp only [h1eq] at heq; cases heq
  | some h1 =>
    simp only [h1eq] at heq
    obtain ⟨hlen1, hlow1, hband1⟩ :=
      setProp_spec h1eq (fun t ht => by cases ht; exact hkr) band (valFresh_bool _ _ _)
    have hband2 : goodBand h0.length (h1 ++ [(⟨fl⟩ : JObj)]) :=
      goodBand_append (by omega) hband1
        (fun p hp => valFresh_mono (by omega) (hfl p hp))
    cases h3eq : setProp (h1 ++ [(⟨fl⟩ : JObj)]) (JVal.ref r) "_simulation"
        (JVal.ref h1.length) with
    | none => simp only [h3eq] at heq; cases heq
    | some h3 =>
      simp only [h3eq, Option.some.injEq, Prod.mk.injEq] at heq
      obtain ⟨rfl, rfl⟩ := heq
      obtain ⟨hlen3, hlow3, hband3⟩ :=
        setProp_spec h3eq (fun t ht => by cases ht; exact hkr) hband2
          (by
            intro a ha
            cases ha
            constructor
            · omega
            · simp only [List.length_append, List.length_singleton]
              omega)
      have hlen2 : h3.length = h1.length + 1 := by
        rw [hlen3]
        simp
      refine ⟨⟨?_, by omega, hband3, hkr, by omega⟩, rfl⟩
      intro i hi
      rw [hlow3 i hi,
        show (h1 ++ [(⟨fl⟩ : JObj)])[i]? = h1[i]? from
          List.getElem?_append_left (by omega),
        hlow1 i hi]
      exact low i hi

/-- Reads through unchanged low addresses of a closed heap are unchanged. -/
theorem getPath2_congr {h h2 : Heap} {r : ℕ} (hc : closedHeap h)
    (hr : r < h.length) (hag : ∀ i, i < h.length → h2[i]? = h[i]?)
    (key1 key2 : String) :
    getPath2 h2 r key1 key2 = getPath2 h r key1 key2 := by
  unfold getPath2
  have e1 : getProp h2 (JVal.ref r) key1 = getProp h (JVal.ref r) key1 := by
    simp only [getProp]
    rw [show getObj h2 r = getObj h r from hag r hr]
  rw [e1]
  cases hv : getProp h (JVal.ref r) key1 with
  | none => rfl
  | some v1 =>
    cases v1 with
    | ref b =>
      have hb : b < h.length := by
        simp only [getProp, Option.map_eq_some'] at hv
        obtain ⟨o, ho, hfd⟩ := hv
        rcases getFieldD_cases o key1 with hcase | hcase
        · rw [hcase] at hfd; cases hfd
        · exact hc r o ho (key1, getFieldD o key1) hcase b hfd
      simp only [getProp]
      rw [show getObj h2 b = getObj h b from hag b hb]
    | null => rfl
    | undef => rfl
    | bool b => rfl
    | num q => rfl
    | str s => rfl

/-- The conclusions of the frame theorem, from the simulator invariant. -/
theorem simInv_conclusion {h : Heap} {origAddr : ℕ} {h' : Heap} {r' : ℕ}
    (hc : closedHeap h) (horig : origAddr < h.length) (inv : SimInv h h' r') :
    (∀ a, Reach h origAddr a → h'[a]? = h[a]?) ∧
    (∀ i, i < h.length → h'[i]? = h[i]?) ∧
    h.length ≤ r' ∧ (∀ a, Reach h' r' a → h.length ≤ a) := by
  obtain ⟨low, len, band, hkr, hrlen⟩ := inv
  exact ⟨fun a ha => low a (reach_lt hc horig a ha), low, hkr,
    fun a ha => reach_ge band hkr a ha⟩

/-- Claim C8: `simulateDoseChange` never mutates the original result object
and returns a deep copy.  On a closed heap whose result object has a string
`risk_label` and numeric `confidence_score`, every successful run leaves
every address reachable from the original object (indeed, every
pre-existing address) exactly as it was, and the returned simulated object
together with everything reachable from it lives entirely in freshly
allocated addresses, disjoint from the original. -/
theorem simulateDoseChange_frame (h : Heap) (origAddr : ℕ) (dose : ℚ)
    (h' : Heap) (r' : ℕ) (L : String) (C : ℚ)
    (hc : closedHeap h) (horig : origAddr < h.length)
    (hL : getPath2 h origAddr "risk_assessment" "risk_label" = some (JVal.str L))
    (hC : getPath2 h origAddr "risk_assessment" "confidence_score" =
      some (JVal.num C))
    (heq : simulateDoseChange h origAddr dose = some (h', r')) :
    (∀ a, Reach h origAddr a → h'[a]? = h[a]?) ∧
    (∀ i, i < h.length → h'[i]? = h[i]?) ∧
    h.length ≤ r' ∧
    (∀ a, Reach h' r' a → h.length ≤ a) := by
  rw [simulateDoseChange] at heq
  cases hcp : copyVal (h.length + 1) h (JVal.ref origAddr) with
  | none => simp only [hcp] at heq; cases heq
  | some pr =>
    obtain ⟨h1, rv⟩ := pr
    cases rv with
    | null => simp only [hcp] at heq; cases heq
    | undef => simp only [hcp] at heq; cases heq
    | bool b => simp only [hcp] at heq; cases heq
    | num q => simp only [hcp] at heq; cases heq
    | str s => simp only [hcp] at heq; cases heq
    | ref r =>
      simp only [hcp] at heq
      obtain ⟨low1, len1, band1, fresh1⟩ :=
        copyVal_spec (h.length + 1) h (JVal.ref origAddr) h1 (JVal.ref r) hcp
          h.length le_rfl (goodBand_self h)
      have hrk := fresh1 r rfl
      have inv1 : SimInv h h1 r := ⟨low1, len1, band1, hrk.1, hrk.2⟩
      cases hlb : getPath2 h1 r "risk_assessment" "risk_label" with
      | none => simp only [hlb] at heq; cases heq
      | some labelV =>
        simp only [hlb] at heq
        by_cases h100 : max 0 (min 100 dose) = (100 : ℚ)
        · rw [if_pos h100] at heq
          cases hol : getPath2 h1 origAddr "risk_assessment" "risk_label" with
          | none => simp only [hol] at heq; cases heq
          | some ol =>
            simp only [hol] at heq
            have holv : ol = JVal.str L := by
              rw [getPath2_congr hc horig low1 "risk_assessment" "risk_label",
                hL] at hol
              exact (Option.some_inj.mp hol).symm
            subst holv
            have hfl : ∀ p ∈ [("type", JVal.str "dose_change"),
                ("dose_percent", JVal.num (max 0 (min 100 dose))),
                ("original_label", JVal.str L),
                ("disclaimer", JVal.str disclaimerText)],
                valFresh h.length h1.length p.2 := by
              intro p hp
              simp only [List.mem_cons, List.not_mem_nil, or_false] at hp
              rcases hp with rfl | rfl | rfl | rfl
              · exact valFresh_str _ _ _
              · exact valFresh_num _ _ _
              · exact valFresh_str _ _ _
              · exact valFresh_str _ _ _
            obtain ⟨inv', rfl⟩ := attachSimulation_inv inv1 hfl heq
            exact simInv_conclusion hc horig inv'
        · rw [if_neg h100] at heq
          by_cases h0 : max 0 (min 100 dose) = (0 : ℚ)
          · rw [if_pos h0] at heq
            cases h2eq : setRAField h1 r "risk_label" (JVal.str "Ineffective") with
            | none => simp only [h2eq] at heq; cases heq
            | some h2 =>
              simp only [h2eq] at heq
              have inv2 := setRAField_inv inv1 (valFresh_str _ _ _) h2eq
              cases h3eq : setRAField h2 r "severity" (JVal.str "high") with
              | none => simp only [h3eq] at heq; cases heq
              | some h3 =>
                simp only [h3eq] at heq
                have inv3 := setRAField_inv inv2 (valFresh_str _ _ _) h3eq
                cases h4eq : setRAField h3 r "confidence_score" (JVal.num 0.95) with
                | none => simp only [h4eq] at heq; cases heq
                | some h4 =>
                  simp only [h4eq] at heq
                  have inv4 := setRAField_inv inv3 (valFresh_num _ _ _) h4eq
                  cases hol : getPath2 h4 origAddr "risk_assessment" "risk_label" with
                  | none => simp only [hol] at heq; cases heq
                  | some ol =>
                    simp only [hol] at heq
                    have holv : ol = JVal.str L := by
                      rw [getPath2_congr hc horig inv4.1 "risk_assessment"
                        "risk_label", hL] at hol
                      exact (Option.some_inj.mp hol).symm
                    subst holv
                    have hfl : ∀ p ∈ [("type", JVal.str "dose_change"),
                        ("dose_percent", JVal.num 0),
                        ("original_label", JVal.str L),
                        ("disclaimer", JVal.str disclaimerText)],
                        valFresh h.length h4.length p.2 := by
                      intro p hp
                      simp only [List.mem_cons, List.not_mem_nil, or_false] at hp
                      rcases hp with rfl | rfl | rfl | rfl
                      · exact valFresh_str _ _ _
                      · exact valFresh_num _ _ _
                      · exact valFresh_str _ _ _
                      · exact valFresh_str _ _ _
                    obtain ⟨inv', rfl⟩ := attachSimulation_inv inv4 hfl heq
                    exact simInv_conclusion hc horig inv'
          · rw [if_neg h0] at heq
            have hmid : ∀ h5 : Heap,
                (if max 0 (min 100 dose) ≤ (30 : ℚ) then applyLowBand h1 r labelV
                 else if max 0 (min 100 dose) ≤ (60 : ℚ) then applyMidBand h1 r labelV
                 else applyHighBand h1 r labelV) = some h5 → SimInv h h5 r := by
              intro h5 hh5
              split_ifs at hh5
              · exact applyLowBand_inv inv1 hh5
              · exact applyMidBand_inv inv1 hh5
              · exact applyHighBand_inv inv1 hh5
            cases hband : (if max 0 (min 100 dose) ≤ (30 : ℚ) then
                applyLowBand h1 r labelV
              else if max 0 (min 100 dose) ≤ (60 : ℚ) then applyMidBand h1 r labelV
              else applyHighBand h1 r labelV) with
            | none => simp only [hband] at heq; cases heq
            | some h5 =>
              simp only [hband] at heq
              have inv5 := hmid h5 hband
              cases hol : getPath2 h5 origAddr "risk_assessment" "risk_label" with
              | none => simp only [hol] at heq; cases heq
              | some ol =>
                simp only [hol] at heq
                have holv : ol = JVal.str L := by
                  rw [getPath2_congr hc horig inv5.1 "risk_assessment"
                    "risk_label", hL] at hol
                  exact (Option.some_inj.mp hol).symm
                subst holv
                cases hoc : getPath2 h5 origAddr "risk_assessment"
                    "confidence_score" with
                | none => simp only [hoc] at heq; cases heq
                | some oc =>
                  simp only [hoc] at heq
                  have hocv : oc = JVal.num C := by
                    rw [getPath2_congr hc horig inv5.1 "risk_assessment"
                      "confidence_score", hC] at hoc
                    exact (Option.some_inj.mp hoc).symm
                  subst hocv
                  have hfl : ∀ p ∈ [("type", JVal.str "dose_change"),
                      ("dose_percent", JVal.num (max 0 (min 100 dose))),
                      ("original_label", JVal.str L),
                      ("original_confidence", JVal.num C),
                      ("disclaimer", JVal.str disclaimerText)],
                      valFresh h.length h5.length p.2 := by
                    intro p hp
                    simp only [List.mem_cons, List.not_mem_nil, or_false] at hp
                    rcases hp with rfl | rfl | rfl | rfl | rfl
                    · exact valFresh_str _ _ _
                    · exact valFresh_num _ _ _
                    · exact valFresh_str _ _ _
                    · exact valFresh_num _ _ _
                    · exact valFresh_str _ _ _
                  obtain ⟨inv', rfl⟩ := attachSimulation_inv inv5 hfl heq
                  exact simInv_conclusion hc horig inv'

/-- Witness for C8: a successful run on the two-object fixture heap at dose
50% leaves both original objects untouched and allocates the simulated copy
entirely in fresh addresses. -/
theorem simulateDoseChange_frame_witness :
    ∃ (h' : Heap) (r' : ℕ),
      simulateDoseChange heapW 0 50 = some (h', r') ∧
      (∀ i, i < heapW.length → h'[i]? = heapW[i]?) ∧
      heapW.length ≤ r' ∧
      (∀ a, Reach h' r' a → heapW.length ≤ a) := by
  have hsome : (simulateDoseChange heapW 0 50).isSome = true := by
    with_unfolding_all decide
  obtain ⟨pr, hrun⟩ := Option.isSome_iff_exists.mp hsome
  obtain ⟨h', r'⟩ := pr
  have hclosed : closedHeap heapW := by
    intro i o ho p hp a hpa
    have hi : i < 2 := by
      by_contra hcon
      rw [show getObj heapW i = none from
        List.getElem?_eq_none (le_of_not_lt hcon)] at ho
      cases ho
    interval_cases i
    · rw [show getObj heapW 0 = some ⟨[("risk_assessment", JVal.ref 1),
        ("drug", JVal.str "CODEINE")]⟩ from rfl] at ho
      cases ho
      simp only [List.mem_cons, List.not_mem_nil, or_false] at hp
      rcases hp with rfl | rfl
      · cases hpa; decide
      · cases hpa
    · rw [show getObj heapW 1 = some ⟨[("risk_label", JVal.str "Safe"),
        ("confidence_score", JVal.num 0.8),
        ("severity", JVal.str "none")]⟩ from rfl] at ho
      cases ho
      simp only [List.mem_cons, List.not_mem_nil, or_false] at hp
      rcases hp with rfl | rfl | rfl
      · cases hpa
      · cases hpa
      · cases hpa
  have main := simulateDoseChange_frame heapW 0 50 h' r' "Safe" 0.8 hclosed
    (by decide) (by with_unfolding_all decide) (by with_unfolding_all decide) hrun
  exact ⟨h', r', hrun, main.2.1, main.2.2.1, main.2.2.2⟩

end PharmaGuard
